import Mathlib

/-!
# waylib cursor core: icon resolution, enter/leave edges, event translation

A shallow embedding of `src/server/kernel/wcursor.cpp`.  Pointers become
`Option`s of identifiers, the wlroots cursor handle becomes the record of the
last image that was set on it together with its position, and the events that
the cursor sends to windows and to its seat are appended to logs kept in the
state, so that "which notifications were delivered, and in which order" is a
statement about a list.
-/

namespace Waylib

/-! ## Icon theme resolution (`WCursorPrivate::checkTypeAndFallback`) -/

/-- The scale at which a theme is probed; `1.0` in the source is the rational `1`. -/
abbrev Scale := ℚ

/-- The xcursor manager as far as the cursor uses it for resolution:
`getXCursor name scale` is `true` when `getXCursor(name, scale)` is non-null. -/
structure QWXCursorManager where
  getXCursor : String → Scale → Bool

/-- The static table `typeLists` of `checkTypeAndFallback`, in source order. -/
def typeLists : List (List String) :=
  [ ["ibeam", "text", "xterm"],
    ["openhand", "grab"],
    ["crosshair", "cross", "all-scroll"],
    ["closedhand", "dnd-move", "move", "dnd-none", "grabbing"],
    ["dnd-copy", "copy"],
    ["dnd-link", "link"],
    ["row-resize", "size_ver", "ns-resize", "split_v", "n-resize", "s-resize"],
    ["col-resize", "size_hor", "ew-resize", "split_h", "e-resize", "w-resize"],
    ["nwse-resize", "nw-resize", "se-resize", "size_fdiag"],
    ["progress", "wait", "watch"],
    ["hand1", "hand2", "pointer", "pointing_hand"] ]

/-- The test `hasType`: `std::find_if` with `strcmp(type, name) == 0` hits an entry. -/
def hasType (typeList : List String) (name : String) : Bool :=
  typeList.any (fun type => decide (type = name))

/-- The `for` loop of `checkTypeAndFallback` over the remaining groups: a group
without `name` is skipped (`continue`); the first group with `name` decides the
result, which is its first entry the theme has at scale `1.0`, or null when the
`find_if` reaches `end()`. Falling out of the loop returns null. -/
def fallbackLoop (m : QWXCursorManager) (name : String) : List (List String) → Option String
  | [] => none
  | typeList :: rest =>
    if hasType typeList name then
      typeList.find? (fun type => m.getXCursor type 1)
    else
      fallbackLoop m name rest

/-- The function `WCursorPrivate::checkTypeAndFallback(name)` for a non-null `name`;
`none` is the null result. -/
def checkTypeAndFallback (xcursor_manager : Option QWXCursorManager) (name : String) :
    Option String :=
  match xcursor_manager with
  | none => none
  | some m =>
    if m.getXCursor name 1 then some name
    else fallbackLoop m name typeLists

/-- The first group of a table that contains `name`, if any. -/
def firstGroupOf (name : String) (table : List (List String)) : Option (List String) :=
  table.find? (fun typeList => hasType typeList name)


/-! ## Ambient objects

Objects the cursor only refers to are identified by a number (the pointer
value); a null pointer is `none`. Coordinates are integers (fixed-point units):
no statement below depends on fractional values. -/

/-- A seat (`WSeat*`). -/
abbrev WSeat := Nat
/-- A window that receives enter and leave events (`QWindow*`). -/
abbrev QWindow := Nat
/-- A client surface (`QWSurface*`). -/
abbrev QWSurface := Nat
/-- An output layout (`WOutputLayout*`). -/
abbrev WOutputLayout := Nat
/-- The wlroots handle of an input device, as carried by raw events. -/
abbrev QWInputDevice := Nat

/-- A point (`QPointF`, `QPoint`). -/
structure QPointF where
  x : Int
  y : Int
  deriving DecidableEq, Repr

/-- The difference of two points, `a - b` on `QPointF`. -/
def QPointF.sub (a b : QPointF) : QPointF := ⟨a.x - b.x, a.y - b.y⟩

/-- Modelled from the spec: the kinds of input device (`winputdevice.h` is not
among the sources). Pointer, touch and tablet are the kinds the cursor accepts;
the remaining constructors stand for the kinds it rejects. -/
inductive WInputDeviceType
  | Unknow | Keyboard | Pointer | Touch | Tablet | TabletPad | Switch
  deriving DecidableEq, Repr

/-- An input device as the cursor sees it: its identity and `type()`. -/
structure WInputDevice where
  id : Nat
  type : WInputDeviceType
  deriving DecidableEq, Repr

/-- The values of `QInputDevice::DeviceType` that `getDevice` tells apart. -/
inductive QDeviceType
  | Unknown | Mouse | TouchScreen | TouchPad | Puck | Stylus | Airbrush | Keyboard
  deriving DecidableEq, Repr

/-- An entry of `QInputDevice::devices()`. `wdevice` is `WInputDevice::from(device)`:
`none` when it is null, otherwise the value of its `seat()`, itself nullable. -/
structure QInputDevice where
  seatName : String
  type : QDeviceType
  wdevice : Option (Option WSeat)
  deriving DecidableEq, Repr

/-- What the cursor reads from its surroundings during one call. -/
structure Env where
  /-- The list `QInputDevice::devices()`. -/
  devices : List QInputDevice
  /-- The name of a seat, `seat->name()`. -/
  seatName : WSeat → String
  /-- The surface with pointer focus, `seat->pointerFocusSurface()`. -/
  pointerFocusSurface : WSeat → Option QWSurface
  /-- The position of a window, `eventWindow->position()`. -/
  windowPosition : QWindow → QPointF
  /-- The position after `handle()->move(device, delta)`, from the position before. -/
  move : QWInputDevice → QPointF → QPointF → QPointF
  /-- The position after `handle()->warpAbsolute(device, ratio)`. -/
  warpAbsolute : QWInputDevice → QPointF → QPointF → QPointF

/-- An event delivered to a window by `QCoreApplication::sendEvent`. -/
inductive WindowEvent
  | enter (window : QWindow) (localPos globalPos : QPointF)
  | leave (window : QWindow)
  deriving DecidableEq, Repr

/-- Whether the event is an enter event. -/
def WindowEvent.isEnter : WindowEvent → Bool
  | .enter _ _ _ => true
  | .leave _ => false

/-- Whether the event is a leave event. -/
def WindowEvent.isLeave : WindowEvent → Bool
  | .enter _ _ _ => false
  | .leave _ => true

/-- The window an event is addressed to. -/
def WindowEvent.window : WindowEvent → QWindow
  | .enter w _ _ => w
  | .leave w => w

/-! ## Cursor shapes -/

/-- The cursor shapes: the values of `Qt::CursorShape` followed by those that
`WCursor::CursorShape` adds, as one enumeration (both share the underlying
integer type that `qcursorShapeToType` takes). -/
inductive CursorShape
  | ArrowCursor | UpArrowCursor | CrossCursor | WaitCursor | IBeamCursor | SizeVerCursor
  | SizeHorCursor | SizeBDiagCursor | SizeFDiagCursor | SizeAllCursor | BlankCursor
  | SplitVCursor | SplitHCursor | PointingHandCursor | ForbiddenCursor | WhatsThisCursor
  | BusyCursor | OpenHandCursor | ClosedHandCursor | DragCopyCursor | DragMoveCursor
  | DragLinkCursor | BitmapCursor | CustomCursor
  | Default | Invalid | BottomLeftCorner | BottomRightCorner | TopLeftCorner | TopRightCorner
  | BottomSide | LeftSide | RightSide | TopSide | Grabbing | Xterm | Hand1 | Watch
  | SWResize | SEResize | SResize | WResize | EResize | EWResize | NWResize | NWSEResize
  | NEResize | NESWResize | NSResize | NResize | AllScroll | Text | Pointer | Wait
  | ContextMenu | Help | Progress | Cell | Crosshair | VerticalText | Alias | Copy | Move
  | NoDrop | NotAllowed | Grab | ColResize | RowResize | ZoomIn | ZoomOut
  deriving DecidableEq, Repr

/-- The function `qcursorShapeToType`; `none` is the null pointer of the `default` case. -/
def qcursorShapeToType : CursorShape → Option String
  | .ArrowCursor => some "left_ptr"
  | .UpArrowCursor => some "up_arrow"
  | .CrossCursor => some "cross"
  | .WaitCursor => some "wait"
  | .IBeamCursor => some "ibeam"
  | .SizeAllCursor => some "size_all"
  | .BlankCursor => some "blank"
  | .PointingHandCursor => some "pointing_hand"
  | .SizeBDiagCursor => some "size_bdiag"
  | .SizeFDiagCursor => some "size_fdiag"
  | .SizeVerCursor => some "size_ver"
  | .SplitVCursor => some "split_v"
  | .SizeHorCursor => some "size_hor"
  | .SplitHCursor => some "split_h"
  | .WhatsThisCursor => some "whats_this"
  | .ForbiddenCursor => some "forbidden"
  | .BusyCursor => some "left_ptr_watch"
  | .OpenHandCursor => some "openhand"
  | .ClosedHandCursor => some "closedhand"
  | .DragCopyCursor => some "dnd-copy"
  | .DragMoveCursor => some "dnd-move"
  | .DragLinkCursor => some "dnd-link"
  | .Default => some "default"
  | .BottomLeftCorner => some "bottom_left_corner"
  | .BottomRightCorner => some "bottom_right_corner"
  | .TopLeftCorner => some "top_left_corner"
  | .TopRightCorner => some "top_right_corner"
  | .BottomSide => some "bottom_side"
  | .LeftSide => some "left_side"
  | .RightSide => some "right_side"
  | .TopSide => some "top_side"
  | .Grabbing => some "grabbing"
  | .Xterm => some "xterm"
  | .Hand1 => some "hand1"
  | .Watch => some "watch"
  | .SWResize => some "sw-resize"
  | .SEResize => some "se-resize"
  | .SResize => some "s-resize"
  | .WResize => some "w-resize"
  | .EResize => some "e-resize"
  | .EWResize => some "ew-resize"
  | .NWResize => some "nw-resize"
  | .NWSEResize => some "nwse-resize"
  | .NEResize => some "ne-resize"
  | .NESWResize => some "nesw-resize"
  | .NSResize => some "ns-resize"
  | .NResize => some "n-resize"
  | .AllScroll => some "all-scroll"
  | .Text => some "text"
  | .Pointer => some "pointer"
  | .Wait => some "wait"
  | .ContextMenu => some "context-menu"
  | .Help => some "help"
  | .Progress => some "progress"
  | .Cell => some "cell"
  | .Crosshair => some "crosshair"
  | .VerticalText => some "vertical-text"
  | .Alias => some "alias"
  | .Copy => some "copy"
  | .Move => some "move"
  | .NoDrop => some "no-drop"
  | .NotAllowed => some "not-allowed"
  | .Grab => some "grab"
  | .ColResize => some "col-resize"
  | .RowResize => some "row-resize"
  | .ZoomIn => some "zoom-in"
  | .ZoomOut => some "zoom-out"
  | _ => none

/-- A bitmap (`QImage`), by identity and device pixel ratio. -/
structure QImage where
  id : Nat
  devicePixelRatio : Scale
  deriving DecidableEq, Repr

/-- A `QCursor`: its shape, its pixmap (`none` when `toImage()` is a null image)
and its hot spot. -/
structure QCursor where
  shape : CursorShape
  pixmap : Option QImage
  hotSpot : QPointF
  deriving DecidableEq, Repr

/-- The image the wlroots cursor handle shows: the last of `unsetImage`,
`setXCursor`, `setBuffer` and `setSurface` that was called on it. -/
inductive CursorImage
  | unset
  | xcursor (name : String)
  | buffer (image : QImage) (hotspot : QPointF) (scale : Scale)
  | surface (surface : Option QWSurface) (hotspot : QPointF)
  deriving DecidableEq, Repr

/-! ## Raw events and seat notifications -/

/-- The enumeration `wlr_button_state`. -/
inductive wlr_button_state
  | WLR_BUTTON_RELEASED | WLR_BUTTON_PRESSED
  deriving DecidableEq, Repr

/-- The enumeration `wlr_axis_orientation`. -/
inductive wlr_axis_orientation
  | WLR_AXIS_ORIENTATION_VERTICAL | WLR_AXIS_ORIENTATION_HORIZONTAL
  deriving DecidableEq, Repr

/-- The enumeration `Qt::Orientation`. -/
inductive Orientation
  | Horizontal | Vertical
  deriving DecidableEq, Repr

/-- The gesture kinds of `WGestureEvent` that the cursor forwards. -/
inductive WGestureType
  | SwipeGesture | PinchGesture
  deriving DecidableEq, Repr

structure wlr_pointer_motion_event where
  pointer : QWInputDevice
  time_msec : Nat
  delta_x : Int
  delta_y : Int
  deriving DecidableEq, Repr

structure wlr_pointer_motion_absolute_event where
  pointer : QWInputDevice
  time_msec : Nat
  x : Int
  y : Int
  deriving DecidableEq, Repr

structure wlr_pointer_button_event where
  pointer : QWInputDevice
  time_msec : Nat
  button : Nat
  state : wlr_button_state
  deriving DecidableEq, Repr

structure wlr_pointer_axis_event where
  pointer : QWInputDevice
  time_msec : Nat
  source : Nat
  orientation : wlr_axis_orientation
  delta : Int
  delta_discrete : Int
  deriving DecidableEq, Repr

/-- The begin event of a swipe, pinch or hold gesture. -/
structure wlr_pointer_gesture_begin_event where
  pointer : QWInputDevice
  time_msec : Nat
  fingers : Nat
  deriving DecidableEq, Repr

structure wlr_pointer_swipe_update_event where
  pointer : QWInputDevice
  time_msec : Nat
  dx : Int
  dy : Int
  deriving DecidableEq, Repr

structure wlr_pointer_pinch_update_event where
  pointer : QWInputDevice
  time_msec : Nat
  dx : Int
  dy : Int
  scale : Int
  rotation : Int
  deriving DecidableEq, Repr

/-- The end event of a swipe, pinch or hold gesture. -/
structure wlr_pointer_gesture_end_event where
  pointer : QWInputDevice
  time_msec : Nat
  cancelled : Bool
  deriving DecidableEq, Repr

/-- The events `wlr_touch_down_event` and `wlr_touch_motion_event`. -/
structure wlr_touch_position_event where
  touch : QWInputDevice
  time_msec : Nat
  touch_id : Int
  x : Int
  y : Int
  deriving DecidableEq, Repr

/-- The events `wlr_touch_up_event` and `wlr_touch_cancel_event`. -/
structure wlr_touch_id_event where
  touch : QWInputDevice
  time_msec : Nat
  touch_id : Int
  deriving DecidableEq, Repr

/-- A call of one of the `notify...` sinks of the bound seat, with its arguments. -/
inductive SeatNotification
  | notifyMotion (device : QWInputDevice) (time : Nat)
  | notifyButton (device : QWInputDevice) (button : Nat) (state : wlr_button_state) (time : Nat)
  | notifyAxis (device : QWInputDevice) (source : Nat) (orientation : Orientation)
      (delta : Int) (deltaDiscrete : Int) (time : Nat)
  | notifyFrame
  | notifyGestureBegin (device : QWInputDevice) (time : Nat) (fingers : Nat) (kind : WGestureType)
  | notifyGestureUpdate (device : QWInputDevice) (time : Nat) (delta : QPointF)
      (scale : Int) (rotation : Int) (kind : WGestureType)
  | notifyGestureEnd (device : QWInputDevice) (time : Nat) (cancelled : Bool)
      (kind : WGestureType)
  | notifyHoldBegin (device : QWInputDevice) (time : Nat) (fingers : Nat)
  | notifyHoldEnd (device : QWInputDevice) (time : Nat) (cancelled : Bool)
  | notifyTouchDown (device : QWInputDevice) (touchId : Int) (time : Nat)
  | notifyTouchMotion (device : QWInputDevice) (touchId : Int) (time : Nat)
  | notifyTouchFrame
  | notifyTouchCancel (device : QWInputDevice) (touchId : Int) (time : Nat)
  | notifyTouchUp (device : QWInputDevice) (touchId : Int) (time : Nat)
  deriving DecidableEq, Repr

/-! ## The cursor state -/

/-- The members of `WCursorPrivate` that the modelled functions read or write,
the two observable parts of its wlroots handle (`position`, `image`), and the
logs of what the cursor has sent: `windowEvents` to windows, `seatNotifications`
to seats (the seat that received the call is the first component). -/
structure WCursorPrivate where
  position : QPointF
  image : CursorImage
  xcursor_manager : Option QWXCursorManager
  cursor : QCursor
  shape : CursorShape
  surfaceOfCursor : Option QWSurface
  surfaceCursorHotspot : QPointF
  seat : Option WSeat
  eventWindow : Option QWindow
  outputLayout : Option WOutputLayout
  deviceList : List WInputDevice
  lastPressedOrTouchDownPosition : QPointF
  visible : Bool
  enterWindowEventHasSend : Bool
  leaveWindowEventHasSend : Bool
  button : Nat
  state : Nat
  windowEvents : List WindowEvent
  seatNotifications : List (WSeat × SeatNotification)

/-! ## Enter and leave edges

A function that can hit a failed `Q_ASSERT` or dereference a null pointer
returns an `Option`: `none` is that fatal stop. -/

/-- The function `getDevice`: the first Qt device of the seat name that is a
mouse or a touch pad. -/
def getDevice (devices : List QInputDevice) (seatName : String) : Option QInputDevice :=
  devices.find? (fun i =>
    decide (i.seatName = seatName) &&
      (decide (i.type = QDeviceType.Mouse) || decide (i.type = QDeviceType.TouchPad)))

/-- The function `WCursorPrivate::sendEnterEvent`. Fatal: no seat (`seat->name()`),
the assertion `device && WInputDevice::from(device)`, no window
(`eventWindow->position()`). -/
def sendEnterEvent (env : Env) (d : WCursorPrivate) : Option WCursorPrivate :=
  if d.enterWindowEventHasSend then some d
  else
    match d.seat with
    | none => none
    | some seat =>
      match getDevice env.devices (env.seatName seat) with
      | none => none
      | some device =>
        match device.wdevice with
        | none => none
        | some none => some d
        | some (some _) =>
          match d.eventWindow with
          | none => none
          | some window =>
            let global := d.position
            let localPos := global.sub (env.windowPosition window)
            some { d with
              enterWindowEventHasSend := true
              windowEvents := d.windowEvents ++ [WindowEvent.enter window localPos global] }

/-- The function `WCursorPrivate::sendLeaveEvent`. Fatal: no seat (`seat->name()`).
`sendEvent` on a null window delivers nothing. -/
def sendLeaveEvent (env : Env) (d : WCursorPrivate) : Option WCursorPrivate :=
  if d.leaveWindowEventHasSend then some d
  else
    match d.seat with
    | none => none
    | some seat =>
      match getDevice env.devices (env.seatName seat) with
      | none => some d
      | some device =>
        match device.wdevice with
        | none => some d
        | some none => some d
        | some (some _) =>
          some { d with
            leaveWindowEventHasSend := true
            windowEvents :=
              match d.eventWindow with
              | none => d.windowEvents
              | some window => d.windowEvents ++ [WindowEvent.leave window] }

/-- The function `WCursor::setSeat`. -/
def setSeat (env : Env) (seat : Option WSeat) (d : WCursorPrivate) : Option WCursorPrivate :=
  let d1 := { d with seat := seat }
  if d1.seat.isSome then
    if d1.eventWindow.isSome then sendEnterEvent env d1 else some d1
  else some d1

/-- The function `WCursor::setEventWindow`. -/
def setEventWindow (env : Env) (window : Option QWindow) (d : WCursorPrivate) :
    Option WCursorPrivate :=
  if d.eventWindow = window then some d
  else
    (if d.eventWindow.isSome && d.seat.isSome then sendLeaveEvent env d else some d).bind
      fun d1 =>
        let d2 := { d1 with
          eventWindow := window
          enterWindowEventHasSend := false
          leaveWindowEventHasSend := false }
        if d2.eventWindow.isSome && d2.seat.isSome && !d2.deviceList.isEmpty then
          sendEnterEvent env d2
        else some d2

/-- The function `WCursor::attachInputDevice`, with its return value. Fatal: the
device is attached already, or the first device arrives with a window set and
no seat (`Q_ASSERT(d->seat)`). -/
def attachInputDevice (env : Env) (device : WInputDevice) (d : WCursorPrivate) :
    Option (Bool × WCursorPrivate) :=
  if device.type ≠ WInputDeviceType.Pointer ∧ device.type ≠ WInputDeviceType.Touch
      ∧ device.type ≠ WInputDeviceType.Tablet then
    some (false, d)
  else if d.deviceList.contains device then none
  else
    let d1 := { d with deviceList := d.deviceList ++ [device] }
    if d1.eventWindow.isSome && d1.deviceList.length == 1 then
      if d1.seat.isSome then (sendEnterEvent env d1).map (fun d2 => (true, d2)) else none
    else some (true, d1)

/-- The function `WCursor::detachInputDevice`. Fatal: the last device goes with a
window set and no seat (`Q_ASSERT(d->seat)`). -/
def detachInputDevice (env : Env) (device : WInputDevice) (d : WCursorPrivate) :
    Option WCursorPrivate :=
  if !d.deviceList.contains device then some d
  else
    let d1 := { d with deviceList := d.deviceList.erase device }
    if d1.eventWindow.isSome && d1.deviceList.isEmpty then
      if d1.seat.isSome then sendLeaveEvent env d1 else none
    else some d1

/-- The operations on the binding of the cursor, as data. -/
inductive Op
  | attach (device : WInputDevice)
  | detach (device : WInputDevice)
  | setSeat (seat : Option WSeat)
  | setEventWindow (window : Option QWindow)
  deriving DecidableEq, Repr

/-- One operation applied to the cursor. -/
def Op.apply (env : Env) : Op → WCursorPrivate → Option WCursorPrivate
  | .attach device, d => (attachInputDevice env device d).map Prod.snd
  | .detach device, d => detachInputDevice env device d
  | .setSeat seat, d => Waylib.setSeat env seat d
  | .setEventWindow window, d => Waylib.setEventWindow env window d

/-- A sequence of operations applied in order; it stops at a fatal one. -/
def runOps (env : Env) : List Op → WCursorPrivate → Option WCursorPrivate
  | [], d => some d
  | op :: ops, d => (op.apply env d).bind (runOps env ops)

/-! ## Event translation -/

/-- The value `Qt::NoButton`. -/
def NoButton : Nat := 0

/-- The function `WCursor::fromNativeButton`, with the values of `Qt::MouseButton`:
`LeftButton = 0x1`, `RightButton = 0x2`, `MiddleButton = 0x4`, and
`ExtraButton1 = 0x8` up to `ExtraButton13 = 0x8000`. -/
def fromNativeButton (code : Nat) : Nat :=
  match code with
  | 0x110 => 0x00000001
  | 0x111 => 0x00000002
  | 0x112 => 0x00000004
  | 0x113 => 0x00000008
  | 0x114 => 0x00000010
  | 0x115 => 0x00000020
  | 0x116 => 0x00000040
  | 0x117 => 0x00000080
  | 0x118 => 0x00000100
  | 0x119 => 0x00000200
  | 0x11a => 0x00000400
  | 0x11b => 0x00000800
  | 0x11c => 0x00001000
  | 0x11d => 0x00002000
  | 0x11e => 0x00004000
  | 0x11f => 0x00008000
  | _ => NoButton

/-- The function `WCursor::toNativeButton`, on the values of `Qt::MouseButton`. -/
def toNativeButton (button : Nat) : Nat :=
  match button with
  | 0x00000001 => 0x110
  | 0x00000002 => 0x111
  | 0x00000004 => 0x112
  | 0x00000008 => 0x113
  | 0x00000010 => 0x114
  | 0x00000020 => 0x115
  | 0x00000040 => 0x116
  | 0x00000080 => 0x117
  | 0x00000100 => 0x118
  | 0x00000200 => 0x119
  | 0x00000400 => 0x11a
  | 0x00000800 => 0x11b
  | 0x00001000 => 0x11c
  | 0x00002000 => 0x11d
  | 0x00004000 => 0x11e
  | 0x00008000 => 0x11f
  | _ => 0

/-- The complement `~button` on the 32 bits of the flags. -/
def complement32 (button : Nat) : Nat := 0xFFFFFFFF ^^^ button

/-- A call `seat->notify...(...)` under `if (Q_LIKELY(seat))`: logged for the
bound seat, dropped without one. -/
def notifySeat (n : SeatNotification) (d : WCursorPrivate) : WCursorPrivate :=
  match d.seat with
  | some seat => { d with seatNotifications := d.seatNotifications ++ [(seat, n)] }
  | none => d

/-- The function `WCursor::move`. -/
def move (env : Env) (device : QWInputDevice) (delta : QPointF) (d : WCursorPrivate) :
    WCursorPrivate :=
  { d with position := env.move device d.position delta }

/-- The function `WCursor::setScalePosition`. -/
def setScalePosition (env : Env) (device : QWInputDevice) (ratio : QPointF)
    (d : WCursorPrivate) : WCursorPrivate :=
  { d with position := env.warpAbsolute device d.position ratio }

/-- The function `WCursorPrivate::processCursorMotion`. -/
def processCursorMotion (device : QWInputDevice) (time : Nat) (d : WCursorPrivate) :
    WCursorPrivate :=
  notifySeat (.notifyMotion device time) d

def on_motion (env : Env) (event : wlr_pointer_motion_event) (d : WCursorPrivate) :
    WCursorPrivate :=
  processCursorMotion event.pointer event.time_msec
    (move env event.pointer ⟨event.delta_x, event.delta_y⟩ d)

def on_motion_absolute (env : Env) (event : wlr_pointer_motion_absolute_event)
    (d : WCursorPrivate) : WCursorPrivate :=
  processCursorMotion event.pointer event.time_msec
    (setScalePosition env event.pointer ⟨event.x, event.y⟩ d)

def on_button (event : wlr_pointer_button_event) (d : WCursorPrivate) : WCursorPrivate :=
  let d1 := { d with button := fromNativeButton event.button }
  let d2 :=
    if event.state = wlr_button_state.WLR_BUTTON_RELEASED then
      { d1 with state := d1.state &&& complement32 d1.button }
    else
      { d1 with
        state := d1.state ||| d1.button
        lastPressedOrTouchDownPosition := d1.position }
  notifySeat (.notifyButton event.pointer d2.button event.state event.time_msec) d2

def on_axis (event : wlr_pointer_axis_event) (d : WCursorPrivate) : WCursorPrivate :=
  notifySeat
    (.notifyAxis event.pointer event.source
      (if event.orientation = wlr_axis_orientation.WLR_AXIS_ORIENTATION_HORIZONTAL
        then Orientation.Horizontal else Orientation.Vertical)
      event.delta event.delta_discrete event.time_msec) d

def on_frame (d : WCursorPrivate) : WCursorPrivate :=
  notifySeat .notifyFrame d

def on_swipe_begin (event : wlr_pointer_gesture_begin_event) (d : WCursorPrivate) :
    WCursorPrivate :=
  notifySeat
    (.notifyGestureBegin event.pointer event.time_msec event.fingers .SwipeGesture) d

def on_swipe_update (event : wlr_pointer_swipe_update_event) (d : WCursorPrivate) :
    WCursorPrivate :=
  notifySeat
    (.notifyGestureUpdate event.pointer event.time_msec ⟨event.dx, event.dy⟩ 0 0
      .SwipeGesture) d

def on_swipe_end (event : wlr_pointer_gesture_end_event) (d : WCursorPrivate) :
    WCursorPrivate :=
  notifySeat
    (.notifyGestureEnd event.pointer event.time_msec event.cancelled .SwipeGesture) d

def on_pinch_begin (event : wlr_pointer_gesture_begin_event) (d : WCursorPrivate) :
    WCursorPrivate :=
  notifySeat
    (.notifyGestureBegin event.pointer event.time_msec event.fingers .PinchGesture) d

def on_pinch_update (event : wlr_pointer_pinch_update_event) (d : WCursorPrivate) :
    WCursorPrivate :=
  notifySeat
    (.notifyGestureUpdate event.pointer event.time_msec ⟨event.dx, event.dy⟩ event.scale
      event.rotation .PinchGesture) d

def on_pinch_end (event : wlr_pointer_gesture_end_event) (d : WCursorPrivate) :
    WCursorPrivate :=
  notifySeat
    (.notifyGestureEnd event.pointer event.time_msec event.cancelled .PinchGesture) d

def on_hold_begin (event : wlr_pointer_gesture_begin_event) (d : WCursorPrivate) :
    WCursorPrivate :=
  notifySeat (.notifyHoldBegin event.pointer event.time_msec event.fingers) d

def on_hold_end (event : wlr_pointer_gesture_end_event) (d : WCursorPrivate) :
    WCursorPrivate :=
  notifySeat (.notifyHoldEnd event.pointer event.time_msec event.cancelled) d

def on_touch_down (env : Env) (event : wlr_touch_position_event) (d : WCursorPrivate) :
    WCursorPrivate :=
  let d1 := setScalePosition env event.touch ⟨event.x, event.y⟩ d
  let d2 := { d1 with lastPressedOrTouchDownPosition := d1.position }
  notifySeat (.notifyTouchDown event.touch event.touch_id event.time_msec) d2

def on_touch_motion (env : Env) (event : wlr_touch_position_event) (d : WCursorPrivate) :
    WCursorPrivate :=
  notifySeat (.notifyTouchMotion event.touch event.touch_id event.time_msec)
    (setScalePosition env event.touch ⟨event.x, event.y⟩ d)

def on_touch_frame (d : WCursorPrivate) : WCursorPrivate :=
  notifySeat .notifyTouchFrame d

def on_touch_cancel (event : wlr_touch_id_event) (d : WCursorPrivate) : WCursorPrivate :=
  notifySeat (.notifyTouchCancel event.touch event.touch_id event.time_msec) d

def on_touch_up (event : wlr_touch_id_event) (d : WCursorPrivate) : WCursorPrivate :=
  notifySeat (.notifyTouchUp event.touch event.touch_id event.time_msec) d

/-- The raw events of the wlroots cursor handle, one constructor per signal that
`WCursorPrivate::connect` wires to a handler. -/
inductive RawEvent
  | motion (event : wlr_pointer_motion_event)
  | motionAbsolute (event : wlr_pointer_motion_absolute_event)
  | button (event : wlr_pointer_button_event)
  | axis (event : wlr_pointer_axis_event)
  | frame
  | swipeBegin (event : wlr_pointer_gesture_begin_event)
  | swipeUpdate (event : wlr_pointer_swipe_update_event)
  | swipeEnd (event : wlr_pointer_gesture_end_event)
  | pinchBegin (event : wlr_pointer_gesture_begin_event)
  | pinchUpdate (event : wlr_pointer_pinch_update_event)
  | pinchEnd (event : wlr_pointer_gesture_end_event)
  | holdBegin (event : wlr_pointer_gesture_begin_event)
  | holdEnd (event : wlr_pointer_gesture_end_event)
  | touchDown (event : wlr_touch_position_event)
  | touchMotion (event : wlr_touch_position_event)
  | touchFrame
  | touchCancel (event : wlr_touch_id_event)
  | touchUp (event : wlr_touch_id_event)
  deriving DecidableEq, Repr

/-- The handler that `WCursorPrivate::connect` attaches to each raw event. -/
def handleEvent (env : Env) : RawEvent → WCursorPrivate → WCursorPrivate
  | .motion e => on_motion env e
  | .motionAbsolute e => on_motion_absolute env e
  | .button e => on_button e
  | .axis e => on_axis e
  | .frame => on_frame
  | .swipeBegin e => on_swipe_begin e
  | .swipeUpdate e => on_swipe_update e
  | .swipeEnd e => on_swipe_end e
  | .pinchBegin e => on_pinch_begin e
  | .pinchUpdate e => on_pinch_update e
  | .pinchEnd e => on_pinch_end e
  | .holdBegin e => on_hold_begin e
  | .holdEnd e => on_hold_end e
  | .touchDown e => on_touch_down env e
  | .touchMotion e => on_touch_motion env e
  | .touchFrame => on_touch_frame
  | .touchCancel e => on_touch_cancel e
  | .touchUp e => on_touch_up e

/-! ## Cursor image -/

/-- The function `WCursorPrivate::setType`: without a manager nothing happens,
with one the handle shows the named theme cursor. -/
def setType (name : String) (d : WCursorPrivate) : WCursorPrivate :=
  match d.xcursor_manager with
  | none => d
  | some _ => { d with image := CursorImage.xcursor name }

/-- The call `checkTypeAndFallback(name)` for a `name` that may be the null
pointer. Without a manager the function returns null before it looks at `name`;
with a manager a null `name` reaches `getXCursor` and `strcmp`, which is fatal
(outer `none`). -/
def checkTypeAndFallbackPtr (xcursor_manager : Option QWXCursorManager)
    (name : Option String) : Option (Option String) :=
  match name with
  | some n => some (checkTypeAndFallback xcursor_manager n)
  | none =>
    match xcursor_manager with
    | none => some none
    | some _ => none

/-- The condition `seat && seat->pointerFocusSurface()`. -/
def hasPointerFocus (env : Env) (d : WCursorPrivate) : Bool :=
  match d.seat with
  | some seat => (env.pointerFocusSurface seat).isSome
  | none => false

/-- The function `WCursorPrivate::updateCursorImage`. -/
def updateCursorImage (env : Env) (d : WCursorPrivate) : Option WCursorPrivate :=
  if d.outputLayout.isNone then some d
  else if hasPointerFocus env d then
    match qcursorShapeToType d.shape with
    | some typeName =>
      match checkTypeAndFallback d.xcursor_manager typeName with
      | some checkedName => some (setType checkedName d)
      | none => some (setType "default" d)
    | none => some d
  else
    let d1 := { d with surfaceOfCursor := none }
    if !d1.visible then some d1
    else
      match checkTypeAndFallbackPtr d1.xcursor_manager (qcursorShapeToType d1.cursor.shape) with
      | none => none
      | some (some typeName) => some (setType typeName d1)
      | some none =>
        match d1.cursor.pixmap with
        | none => some d1
        | some img =>
          some { d1 with
            image := CursorImage.buffer img d1.cursor.hotSpot img.devicePixelRatio }

/-- The function `WCursor::setCursor`. -/
def setCursor (env : Env) (cursor : QCursor) (d : WCursorPrivate) : Option WCursorPrivate :=
  updateCursorImage env { d with cursor := cursor }

/-- The function `WCursor::setSurface`. The recompute that it queues for the
destruction of the surface is not part of the call. -/
def setSurface (surface : Option QWSurface) (hotspot : QPointF) (d : WCursorPrivate) :
    WCursorPrivate :=
  let d1 := { d with
    surfaceOfCursor := surface
    surfaceCursorHotspot := hotspot
    shape := CursorShape.Invalid }
  if d1.visible then { d1 with image := CursorImage.surface surface hotspot } else d1

/-- The function `WCursor::setCursorShape`. -/
def setCursorShape (env : Env) (shape : CursorShape) (d : WCursorPrivate) :
    Option WCursorPrivate :=
  updateCursorImage env { d with shape := shape }

/-- The function `WCursor::setVisible`. -/
def setVisible (env : Env) (visible : Bool) (d : WCursorPrivate) : Option WCursorPrivate :=
  if d.visible = visible then some d
  else
    let d1 := { d with visible := visible }
    if visible then
      match d1.surfaceOfCursor with
      | some surface =>
        some { d1 with image := CursorImage.surface (some surface) d1.surfaceCursorHotspot }
      | none => updateCursorImage env d1
    else some { d1 with image := CursorImage.unset }

/-! ## Example configurations -/

/-- Surroundings in which seat `1`, named `seat0`, has a mouse whose waylib device
reports the seat; no surface has pointer focus, every window sits at the origin. -/
def envMouse : Env where
  devices := [⟨"seat0", QDeviceType.Mouse, some (some 1)⟩]
  seatName := fun _ => "seat0"
  pointerFocusSurface := fun _ => none
  windowPosition := fun _ => ⟨0, 0⟩
  move := fun _ p delta => ⟨p.x + delta.x, p.y + delta.y⟩
  warpAbsolute := fun _ _ ratio => ratio

/-- As `envMouse`, but the waylib device behind the mouse reports no seat. -/
def envMouseNoSeat : Env :=
  { envMouse with devices := [⟨"seat0", QDeviceType.Mouse, some none⟩] }

/-- As `envMouse`, but surface `5` has the pointer focus of every seat. -/
def envFocus : Env :=
  { envMouse with pointerFocusSurface := fun _ => some 5 }

/-- A cursor with nothing bound: no seat, window, layout, theme or device, no
button pressed, nothing sent. -/
def cursor0 : WCursorPrivate where
  position := ⟨0, 0⟩
  image := CursorImage.unset
  xcursor_manager := none
  cursor := ⟨CursorShape.ArrowCursor, none, ⟨0, 0⟩⟩
  shape := CursorShape.Invalid
  surfaceOfCursor := none
  surfaceCursorHotspot := ⟨0, 0⟩
  seat := none
  eventWindow := none
  outputLayout := none
  deviceList := []
  lastPressedOrTouchDownPosition := ⟨0, 0⟩
  visible := true
  enterWindowEventHasSend := false
  leaveWindowEventHasSend := false
  button := NoButton
  state := NoButton
  windowEvents := []
  seatNotifications := []

/-- Two pointer devices. -/
def mouseA : WInputDevice := ⟨1, WInputDeviceType.Pointer⟩
def mouseB : WInputDevice := ⟨2, WInputDeviceType.Pointer⟩

/-- The cursor `cursor0` bound to seat `1` and to window `7`, no enter sent. -/
def cursorBound : WCursorPrivate :=
  { cursor0 with seat := some 1, eventWindow := some 7 }

/-- The cursor `cursorBound` with device `mouseA` attached and the enter event
for window `7` sent. -/
def cursorEntered : WCursorPrivate :=
  { cursorBound with
    deviceList := [mouseA]
    enterWindowEventHasSend := true
    windowEvents := [WindowEvent.enter 7 ⟨0, 0⟩ ⟨0, 0⟩] }

/-- Seat `1` is bound, `mouseA` attached, then window `7` set: the enter event
for window `7` is sent. -/
def opsEnter : List Op :=
  [Op.setSeat (some 1), Op.attach mouseA, Op.setEventWindow (some 7)]

/-- A theme that holds the cursors `left_ptr`, `text` and `default` and nothing else. -/
def themeBasic : QWXCursorManager :=
  ⟨fun name _ => decide (name = "left_ptr") || decide (name = "text") ||
    decide (name = "default")⟩

/-- The cursor `cursor0` with the theme `themeBasic`, layout `3` and seat `1`. -/
def cursorThemed : WCursorPrivate :=
  { cursor0 with xcursor_manager := some themeBasic, outputLayout := some 3, seat := some 1 }

/-- The cursor `cursorThemed` showing the theme cursor `left_ptr`. -/
def cursorArrow : WCursorPrivate :=
  { cursorThemed with image := CursorImage.xcursor "left_ptr" }

/-- The arrow cursor as a `QCursor`. -/
def arrowCursor : QCursor := ⟨CursorShape.ArrowCursor, none, ⟨0, 0⟩⟩

/-- Surroundings as `envMouse`, but Qt knows no input device at all. -/
def envNoDevice : Env :=
  { envMouse with devices := [] }

/-- A keyboard. -/
def keyboardA : WInputDevice := ⟨3, WInputDeviceType.Keyboard⟩

/-- The cursor `cursor0` with window `7` set and no seat bound. -/
def cursorWindowOnly : WCursorPrivate :=
  { cursor0 with eventWindow := some 7 }

/-- The cursor `cursorThemed` with the shape `Xterm` and the client surface `9` cached. -/
def cursorThemedXterm : WCursorPrivate :=
  { cursorThemed with shape := CursorShape.Xterm, surfaceOfCursor := some 9 }

/-- The cursor `cursor0` bound to seat `1`. -/
def cursorSeat : WCursorPrivate :=
  { cursor0 with seat := some 1 }

/-- The cursor `cursor0` standing at the point `(3, 4)`. -/
def cursorAt : WCursorPrivate :=
  { cursor0 with position := ⟨3, 4⟩ }

/-- The cursor `cursorThemed` showing the cached client surface `9`. -/
def cursorSurface : WCursorPrivate :=
  { cursorThemed with
    surfaceOfCursor := some 9
    surfaceCursorHotspot := ⟨1, 1⟩
    image := CursorImage.surface (some 9) ⟨1, 1⟩ }

/-- The cursor `cursorThemed` with the shape `Xterm`, showing the theme cursor `text`. -/
def cursorFocusXterm : WCursorPrivate :=
  { cursorThemed with shape := CursorShape.Xterm, image := CursorImage.xcursor "text" }

/-- A cursor without a theme whose `QCursor` is a bitmap, showing that bitmap. -/
def cursorBitmap : WCursorPrivate :=
  { cursorThemed with
    xcursor_manager := none
    cursor := ⟨CursorShape.BitmapCursor, some ⟨1, 1⟩, ⟨2, 2⟩⟩
    image := CursorImage.buffer ⟨1, 1⟩ ⟨2, 2⟩ 1 }

/-- The log of a run, `none` when the run was fatal. -/
def windowLog (r : Option WCursorPrivate) : Option (List WindowEvent) :=
  r.map (fun d => d.windowEvents)

/-- A theme that holds the cursors `text` and `ibeam` and nothing else. -/
def themeTextIbeam : QWXCursorManager :=
  ⟨fun name _ => decide (name = "text") || decide (name = "ibeam")⟩

/-- A theme that holds the cursors `xterm` and `text` and nothing else. -/
def themeXtermText : QWXCursorManager :=
  ⟨fun name _ => decide (name = "xterm") || decide (name = "text")⟩

/-! ## Theorems -/

theorem hasType_iff (typeList : List String) (name : String) :
    hasType typeList name = true ↔ name ∈ typeList := by
  unfold hasType
  simp only [List.any_eq_true, decide_eq_true_eq]
  constructor
  · rintro ⟨x, hx, rfl⟩
    exact hx
  · intro h
    exact ⟨name, h, rfl⟩

/-- The loop returns what the first group containing the name offers. -/
theorem fallbackLoop_eq (m : QWXCursorManager) (name : String) (table : List (List String)) :
    fallbackLoop m name table =
      (firstGroupOf name table).bind (fun g => g.find? (fun type => m.getXCursor type 1)) := by
  induction table with
  | nil => rfl
  | cons g rest ih =>
    unfold fallbackLoop firstGroupOf
    by_cases h : hasType g name = true
    · simp [h, List.find?]
    · simp only [h, if_false, List.find?]
      simpa [firstGroupOf] using ih

/-- Every name of the table lies in one group only: looking the name up finds
the group it was taken from. -/
theorem typeLists_firstGroup :
    ∀ g ∈ typeLists, ∀ x ∈ g, firstGroupOf x typeLists = some g := by
  decide

theorem firstGroupOf_eq_none (name : String) (table : List (List String)) :
    firstGroupOf name table = none ↔ ∀ g ∈ table, name ∉ g := by
  unfold firstGroupOf
  rw [List.find?_eq_none]
  constructor
  · intro h g hg hn
    exact h g hg ((hasType_iff g name).2 hn)
  · intro h g hg hn
    exact h g hg ((hasType_iff g name).1 hn)

/-- C1: a name that the theme has at scale 1.0 is returned unchanged; the alias
table plays no part in the result. -/
theorem checkTypeAndFallback_literal (m : QWXCursorManager) (name : String)
    (h : m.getXCursor name 1 = true) :
    checkTypeAndFallback (some m) name = some name := by
  simp [checkTypeAndFallback, h]

/-- C1 at the regression case: the theme holds `text` and the earlier group
member `ibeam`; the request `text` gives `text`. -/
theorem checkTypeAndFallback_literal_witness :
    themeTextIbeam.getXCursor "ibeam" 1 = true ∧
      checkTypeAndFallback (some themeTextIbeam) "text" = some "text" :=
  ⟨by decide, checkTypeAndFallback_literal themeTextIbeam "text" (by decide)⟩

/-- C2: for a name the theme lacks, a group of the table that contains the name
and has an entry in the theme decides the result: it is the entry `r` of the
group such that no entry listed before `r` is in the theme and `r` is. -/
theorem checkTypeAndFallback_alias (m : QWXCursorManager) (name : String) (g : List String)
    (hlit : m.getXCursor name 1 = false) (hg : g ∈ typeLists) (hname : name ∈ g)
    (hsome : ∃ e ∈ g, m.getXCursor e 1 = true) :
    ∃ pre r post, g = pre ++ r :: post ∧ (∀ e ∈ pre, m.getXCursor e 1 = false) ∧
      m.getXCursor r 1 = true ∧ checkTypeAndFallback (some m) name = some r := by
  have hfirst := typeLists_firstGroup g hg name hname
  have hres : checkTypeAndFallback (some m) name =
      g.find? (fun type => m.getXCursor type 1) := by
    simp [checkTypeAndFallback, hlit, fallbackLoop_eq, hfirst]
  obtain ⟨e, he, hex⟩ := hsome
  cases hf : g.find? (fun type => m.getXCursor type 1) with
  | none =>
    rw [List.find?_eq_none] at hf
    exact absurd hex (hf e he)
  | some r =>
    obtain ⟨hr, pre, post, hsplit, hpre⟩ := List.find?_eq_some.1 hf
    refine ⟨pre, r, post, hsplit, ?_, hr, by rw [hres, hf]⟩
    intro a ha
    simpa using hpre a ha

/-- C2 at a theme with `xterm` and `text`: the request `ibeam` gives `text`, the
first entry of its group that the theme has. -/
theorem checkTypeAndFallback_alias_witness :
    ∃ pre r post, ["ibeam", "text", "xterm"] = pre ++ r :: post ∧
      (∀ e ∈ pre, themeXtermText.getXCursor e 1 = false) ∧
      themeXtermText.getXCursor r 1 = true ∧
      checkTypeAndFallback (some themeXtermText) "ibeam" = some r :=
  checkTypeAndFallback_alias themeXtermText "ibeam" ["ibeam", "text", "xterm"]
    (by decide) (by decide) (by decide) ⟨"text", by decide, by decide⟩

/-- C3: the result is null exactly when no manager is set, or the theme lacks
the name and either no group holds the name or the theme lacks every entry of
the first group that holds it. -/
theorem checkTypeAndFallback_eq_none_iff (xm : Option QWXCursorManager) (name : String) :
    checkTypeAndFallback xm name = none ↔
      xm = none ∨ ∃ m, xm = some m ∧ m.getXCursor name 1 = false ∧
        ((∀ g ∈ typeLists, name ∉ g) ∨
          ∃ g, firstGroupOf name typeLists = some g ∧ ∀ e ∈ g, m.getXCursor e 1 = false) := by
  cases xm with
  | none => simp [checkTypeAndFallback]
  | some m =>
    cases hlit : m.getXCursor name 1 with
    | true =>
      simp only [checkTypeAndFallback, hlit, if_true]
      constructor
      · intro h
        cases h
      · rintro (h | ⟨m', hm, hl, -⟩)
        · cases h
        · cases hm
          rw [hlit] at hl
          cases hl
    | false =>
      have hres : checkTypeAndFallback (some m) name =
          (firstGroupOf name typeLists).bind
            (fun g => g.find? (fun type => m.getXCursor type 1)) := by
        simp [checkTypeAndFallback, hlit, fallbackLoop_eq]
      rw [hres]
      cases hf : firstGroupOf name typeLists with
      | none =>
        have hno := (firstGroupOf_eq_none name typeLists).1 hf
        constructor
        · intro _
          exact Or.inr ⟨m, rfl, hlit, Or.inl hno⟩
        · intro _
          rfl
      | some g =>
        have hty : hasType g name = true :=
          @List.find?_some _ (fun l => hasType l name) g typeLists hf
        have hmem : name ∈ g := (hasType_iff g name).1 hty
        have hgin : g ∈ typeLists := List.mem_of_find?_eq_some hf
        constructor
        · intro h
          refine Or.inr ⟨m, rfl, hlit, Or.inr ⟨g, rfl, ?_⟩⟩
          intro e he
          have h2 : g.find? (fun type => m.getXCursor type 1) = none := h
          rw [List.find?_eq_none] at h2
          simpa using h2 e he
        · rintro (h | ⟨m', hm, -, h | ⟨g', hg', hall⟩⟩)
          · cases h
          · exact absurd hmem (h g hgin)
          · cases hm
            cases hg'
            show g.find? (fun type => m.getXCursor type 1) = none
            rw [List.find?_eq_none]
            intro e he
            simp [hall e he]

/-! ### Enter and leave edges -/

/-- The state after an enter event was delivered to `window`. -/
theorem sendEnterEvent_deliver (env : Env) (d : WCursorPrivate) (seat : WSeat)
    (window : QWindow) (device : QInputDevice) (ws : WSeat)
    (hseat : d.seat = some seat) (hwin : d.eventWindow = some window)
    (hsent : d.enterWindowEventHasSend = false)
    (hdev : getDevice env.devices (env.seatName seat) = some device)
    (hws : device.wdevice = some (some ws)) :
    sendEnterEvent env d = some { d with
      enterWindowEventHasSend := true
      windowEvents := d.windowEvents ++
        [WindowEvent.enter window (d.position.sub (env.windowPosition window)) d.position] } := by
  simp only [sendEnterEvent, hseat, hwin, hsent, hdev, hws]
  rfl

/-- A call of `sendEnterEvent` with the flag set changes nothing. -/
theorem sendEnterEvent_sent (env : Env) (d : WCursorPrivate)
    (hsent : d.enterWindowEventHasSend = true) : sendEnterEvent env d = some d := by
  simp [sendEnterEvent, hsent]

/-- C4, amended: with a seat bound whose pointing device resolves to a waylib
device that reports a seat, a window set and no enter sent, the first
`sendEnterEvent` delivers one enter event to the window and sets the flag, and
the second changes nothing. -/
theorem sendEnterEvent_twice (env : Env) (d : WCursorPrivate) (seat : WSeat)
    (window : QWindow) (device : QInputDevice) (ws : WSeat)
    (hseat : d.seat = some seat) (hwin : d.eventWindow = some window)
    (hsent : d.enterWindowEventHasSend = false)
    (hdev : getDevice env.devices (env.seatName seat) = some device)
    (hws : device.wdevice = some (some ws)) :
    ∃ d1, sendEnterEvent env d = some d1 ∧ d1.enterWindowEventHasSend = true ∧
      d1.windowEvents = d.windowEvents ++
        [WindowEvent.enter window (d.position.sub (env.windowPosition window)) d.position] ∧
      sendEnterEvent env d1 = some d1 :=
  ⟨_, sendEnterEvent_deliver env d seat window device ws hseat hwin hsent hdev hws, rfl, rfl,
    sendEnterEvent_sent env _ rfl⟩

theorem sendEnterEvent_twice_witness :
    ∃ d1, sendEnterEvent envMouse cursorBound = some d1 ∧ d1.enterWindowEventHasSend = true ∧
      d1.windowEvents = cursorBound.windowEvents ++
        [WindowEvent.enter 7 (cursorBound.position.sub (envMouse.windowPosition 7))
          cursorBound.position] ∧
      sendEnterEvent envMouse d1 = some d1 :=
  sendEnterEvent_twice envMouse cursorBound 1 7 ⟨"seat0", QDeviceType.Mouse, some (some 1)⟩ 1
    rfl rfl rfl (by decide) rfl

/-- C4 as stated fails: seat bound, window set, no enter sent, but the waylib
device behind the mouse of the seat reports no seat; two calls of
`sendEnterEvent` deliver no enter event and leave the flag unset. -/
theorem sendEnterEvent_twice_counterexample :
    cursorBound.seat = some 1 ∧ cursorBound.eventWindow = some 7 ∧
      cursorBound.enterWindowEventHasSend = false ∧
      ((sendEnterEvent envMouseNoSeat cursorBound).bind (sendEnterEvent envMouseNoSeat)).map
        (fun d => (d.enterWindowEventHasSend, d.windowEvents)) = some (false, []) := by
  decide


/-- The state after a leave event was delivered to `window`. -/
theorem sendLeaveEvent_deliver (env : Env) (d : WCursorPrivate) (seat : WSeat)
    (window : QWindow) (device : QInputDevice) (ws : WSeat)
    (hseat : d.seat = some seat) (hwin : d.eventWindow = some window)
    (hsent : d.leaveWindowEventHasSend = false)
    (hdev : getDevice env.devices (env.seatName seat) = some device)
    (hws : device.wdevice = some (some ws)) :
    sendLeaveEvent env d = some { d with
      leaveWindowEventHasSend := true
      windowEvents := d.windowEvents ++ [WindowEvent.leave window] } := by
  simp only [sendLeaveEvent, hseat, hwin, hsent, hdev, hws]
  rfl

/-- C5, amended: with a seat bound whose pointing device resolves to a waylib
device that reports a seat, and with the enter but not yet the leave sent for
the window `old`, `setEventWindow(new)` for `new ≠ old` appends to the log one
leave event for `old` and after it nothing or one enter event for `new`. -/
theorem setEventWindow_leave_before_enter (env : Env) (d : WCursorPrivate) (seat : WSeat)
    (old : QWindow) (new : Option QWindow) (device : QInputDevice) (ws : WSeat)
    (hold : d.eventWindow = some old) (hne : new ≠ some old)
    (_henter : d.enterWindowEventHasSend = true)
    (hleave : d.leaveWindowEventHasSend = false)
    (hseat : d.seat = some seat)
    (hdev : getDevice env.devices (env.seatName seat) = some device)
    (hws : device.wdevice = some (some ws)) :
    ∃ d1 rest, setEventWindow env new d = some d1 ∧ d1.eventWindow = new ∧
      d1.windowEvents = d.windowEvents ++ WindowEvent.leave old :: rest ∧
      (rest = [] ∨ ∃ w, new = some w ∧
        rest = [WindowEvent.enter w (d.position.sub (env.windowPosition w)) d.position]) := by
  have hne2 : ¬ (some old = new) := fun h => hne h.symm
  have hl := sendLeaveEvent_deliver env d seat old device ws hseat hold hleave hdev hws
  have hstep : setEventWindow env new d =
      (let d2 : WCursorPrivate := { d with
          eventWindow := new
          enterWindowEventHasSend := false
          leaveWindowEventHasSend := false
          windowEvents := d.windowEvents ++ [WindowEvent.leave old] }
        if d2.eventWindow.isSome && d2.seat.isSome && !d2.deviceList.isEmpty then
          sendEnterEvent env d2
        else some d2) := by
    simp only [setEventWindow, hold, hseat, hl, hne2, if_false, Option.isSome_some,
      Bool.and_self, if_true, Option.bind]
  rw [hstep]
  cases new with
  | none =>
    refine ⟨{ d with
        eventWindow := none
        enterWindowEventHasSend := false
        leaveWindowEventHasSend := false
        windowEvents := d.windowEvents ++ [WindowEvent.leave old] }, [], ?_, rfl, ?_, Or.inl rfl⟩
    · simp
    · simp
  | some w =>
    by_cases hemp : d.deviceList.isEmpty = true
    · refine ⟨{ d with
          eventWindow := some w
          enterWindowEventHasSend := false
          leaveWindowEventHasSend := false
          windowEvents := d.windowEvents ++ [WindowEvent.leave old] }, [], ?_, rfl, ?_,
        Or.inl rfl⟩
      · simp [hemp]
      · simp
    · refine ⟨{ d with
          eventWindow := some w
          enterWindowEventHasSend := true
          leaveWindowEventHasSend := false
          windowEvents := (d.windowEvents ++ [WindowEvent.leave old]) ++
            [WindowEvent.enter w (d.position.sub (env.windowPosition w)) d.position] },
        [WindowEvent.enter w (d.position.sub (env.windowPosition w)) d.position],
        ?_, rfl, ?_, Or.inr ⟨w, rfl, rfl⟩⟩
      · have hs : d.seat.isSome = true := by simp [hseat]
        simp only [hs, hemp, Option.isSome_some, Bool.and_self, Bool.not_false, if_true]
        exact sendEnterEvent_deliver env _ seat w device ws hseat rfl rfl hdev hws
      · simp

theorem setEventWindow_leave_before_enter_witness :
    ∃ d1 rest, setEventWindow envMouse (some 8) cursorEntered = some d1 ∧
      d1.eventWindow = some 8 ∧
      d1.windowEvents = cursorEntered.windowEvents ++ WindowEvent.leave 7 :: rest ∧
      (rest = [] ∨ ∃ w, some 8 = some w ∧
        rest = [WindowEvent.enter w (cursorEntered.position.sub (envMouse.windowPosition w))
          cursorEntered.position]) :=
  setEventWindow_leave_before_enter envMouse cursorEntered 1 7 (some 8)
    ⟨"seat0", QDeviceType.Mouse, some (some 1)⟩ 1 rfl (by decide) rfl rfl rfl (by decide) rfl

/-- C5 as stated fails: after the enter event for window `7` the seat is unbound;
the state still has window `7` with the enter flag set and the leave flag
unset, and `setEventWindow(8)` delivers no leave event. -/
theorem setEventWindow_leave_counterexample :
    (runOps envMouse (opsEnter ++ [Op.setSeat none]) cursor0).map
        (fun d => (d.eventWindow, d.enterWindowEventHasSend, d.leaveWindowEventHasSend,
          d.windowEvents))
      = some (some 7, true, false, [WindowEvent.enter 7 ⟨0, 0⟩ ⟨0, 0⟩]) ∧
    windowLog ((runOps envMouse (opsEnter ++ [Op.setSeat none]) cursor0).bind
        (setEventWindow envMouse (some 8)))
      = some [WindowEvent.enter 7 ⟨0, 0⟩ ⟨0, 0⟩] := by
  decide

/-- C6 on the code: after the enter event for window `7`, detaching the only
device delivers the leave event; attaching another device then delivers no
enter event, the enter flag being still set; and with nothing attached,
`setEventWindow(8)` followed by `setSeat` delivers an enter event to window `8`. -/
theorem detach_attach_trace :
    windowLog (runOps envMouse (opsEnter ++ [Op.detach mouseA]) cursor0)
      = some [WindowEvent.enter 7 ⟨0, 0⟩ ⟨0, 0⟩, WindowEvent.leave 7] ∧
    (runOps envMouse (opsEnter ++ [Op.detach mouseA, Op.attach mouseB]) cursor0).map
        (fun d => (d.deviceList, d.windowEvents))
      = some ([mouseB], [WindowEvent.enter 7 ⟨0, 0⟩ ⟨0, 0⟩, WindowEvent.leave 7]) ∧
    (runOps envMouse
        (opsEnter ++ [Op.detach mouseA, Op.setEventWindow (some 8), Op.setSeat (some 1)])
        cursor0).map (fun d => (d.deviceList, d.windowEvents))
      = some ([], [WindowEvent.enter 7 ⟨0, 0⟩ ⟨0, 0⟩, WindowEvent.leave 7,
          WindowEvent.enter 8 ⟨0, 0⟩ ⟨0, 0⟩]) := by
  decide

/-- C7 on the code: with a seat bound and no device attached, setting window `7`
and then window `8` delivers a leave event to window `7`, to which no enter
event was ever delivered. -/
theorem leave_without_enter_trace :
    windowLog (runOps envMouse
        [Op.setSeat (some 1), Op.setEventWindow (some 7), Op.setEventWindow (some 8)] cursor0)
      = some [WindowEvent.leave 7] := by
  decide


/-! ### Button mask -/

/-- The mask after a button event. -/
theorem on_button_state (event : wlr_pointer_button_event) (d : WCursorPrivate) :
    (on_button event d).state =
      if event.state = wlr_button_state.WLR_BUTTON_RELEASED then
        d.state &&& complement32 (fromNativeButton event.button)
      else d.state ||| fromNativeButton event.button := by
  unfold on_button notifySeat
  cases d.seat <;> split <;> rfl

/-- The arithmetic of two distinct buttons on an empty mask. -/
theorem button_mask_arith (A B : Nat) (hA : 0x110 ≤ A ∧ A ≤ 0x11f)
    (hB : 0x110 ≤ B ∧ B ≤ 0x11f) (hAB : A ≠ B) :
    (0 ||| fromNativeButton A) ||| fromNativeButton B
        = fromNativeButton A ||| fromNativeButton B ∧
      (((0 ||| fromNativeButton A) ||| fromNativeButton B)
        &&& complement32 (fromNativeButton A)) = fromNativeButton B ∧
      fromNativeButton A ≠ NoButton ∧ fromNativeButton B ≠ NoButton ∧
      fromNativeButton A &&& fromNativeButton B = 0 := by
  obtain ⟨hA1, hA2⟩ := hA
  obtain ⟨hB1, hB2⟩ := hB
  interval_cases A <;> interval_cases B <;> first | exact absurd rfl hAB | decide

/-- C8: from an empty mask, press events for two distinct valid buttons `A` and
`B` leave `state` equal to the two button bits together, and a release event
for `A` then leaves it equal to the bit of `B`; the two bits are non-zero and
disjoint. -/
theorem on_button_press_press_release (d : WCursorPrivate) (A B : Nat)
    (pointerA pointerB pointerC timeA timeB timeC : Nat)
    (hempty : d.state = NoButton) (hA : 0x110 ≤ A ∧ A ≤ 0x11f)
    (hB : 0x110 ≤ B ∧ B ≤ 0x11f) (hAB : A ≠ B) :
    (on_button ⟨pointerB, timeB, B, wlr_button_state.WLR_BUTTON_PRESSED⟩
        (on_button ⟨pointerA, timeA, A, wlr_button_state.WLR_BUTTON_PRESSED⟩ d)).state
      = fromNativeButton A ||| fromNativeButton B ∧
    (on_button ⟨pointerC, timeC, A, wlr_button_state.WLR_BUTTON_RELEASED⟩
        (on_button ⟨pointerB, timeB, B, wlr_button_state.WLR_BUTTON_PRESSED⟩
          (on_button ⟨pointerA, timeA, A, wlr_button_state.WLR_BUTTON_PRESSED⟩ d))).state
      = fromNativeButton B ∧
    fromNativeButton A ≠ NoButton ∧ fromNativeButton B ≠ NoButton ∧
    fromNativeButton A &&& fromNativeButton B = 0 := by
  have h := button_mask_arith A B hA hB hAB
  simp only [on_button_state, hempty, NoButton, if_true, reduceCtorEq, if_false]
  exact h

theorem on_button_press_press_release_witness :
    (on_button ⟨1, 20, 0x111, wlr_button_state.WLR_BUTTON_PRESSED⟩
        (on_button ⟨1, 10, 0x110, wlr_button_state.WLR_BUTTON_PRESSED⟩ cursor0)).state
      = fromNativeButton 0x110 ||| fromNativeButton 0x111 ∧
    (on_button ⟨1, 30, 0x110, wlr_button_state.WLR_BUTTON_RELEASED⟩
        (on_button ⟨1, 20, 0x111, wlr_button_state.WLR_BUTTON_PRESSED⟩
          (on_button ⟨1, 10, 0x110, wlr_button_state.WLR_BUTTON_PRESSED⟩ cursor0))).state
      = fromNativeButton 0x111 ∧
    fromNativeButton 0x110 ≠ NoButton ∧ fromNativeButton 0x111 ≠ NoButton ∧
    fromNativeButton 0x110 &&& fromNativeButton 0x111 = 0 :=
  on_button_press_press_release cursor0 0x110 0x111 1 1 1 10 20 30 rfl
    (by decide) (by decide) (by decide)


/-! ### Events without a seat -/

/-- Without a seat `notifySeat` changes nothing. -/
theorem notifySeat_none (n : SeatNotification) (d : WCursorPrivate) (h : d.seat = none) :
    notifySeat n d = d := by
  simp [notifySeat, h]

/-- With a seat `notifySeat` appends to the log and changes nothing else. -/
theorem notifySeat_some (n : SeatNotification) (d : WCursorPrivate) (seat : WSeat)
    (h : d.seat = some seat) :
    notifySeat n d = { d with seatNotifications := d.seatNotifications ++ [(seat, n)] } := by
  simp [notifySeat, h]

/-- C10: with no seat bound, every handler of a raw event returns a state (the
handlers are total) and sends nothing to any seat or window, and the state is
updated all the same: a motion event moves the position as the handle does, a
button event stores the button, adds it to the mask on a press and records the
position as the last press, or removes it from the mask on a release, a touch
down or touch motion event sets the position, touch down recording it as the
last touch; the other events change nothing. The state returned is the state
the same handler returns with a seat bound, apart from the seat and the log of
its notifications. -/
theorem handleEvent_no_seat (env : Env) (event : RawEvent) (d : WCursorPrivate) (seat : WSeat)
    (h : d.seat = none) :
    handleEvent env event d =
      (match event with
        | RawEvent.motion e =>
          { d with position := env.move e.pointer d.position ⟨e.delta_x, e.delta_y⟩ }
        | RawEvent.motionAbsolute e =>
          { d with position := env.warpAbsolute e.pointer d.position ⟨e.x, e.y⟩ }
        | RawEvent.button e =>
          { d with
            button := fromNativeButton e.button
            state :=
              if e.state = wlr_button_state.WLR_BUTTON_RELEASED then
                d.state &&& complement32 (fromNativeButton e.button)
              else d.state ||| fromNativeButton e.button
            lastPressedOrTouchDownPosition :=
              if e.state = wlr_button_state.WLR_BUTTON_RELEASED then
                d.lastPressedOrTouchDownPosition
              else d.position }
        | RawEvent.touchDown e =>
          { d with
            position := env.warpAbsolute e.touch d.position ⟨e.x, e.y⟩
            lastPressedOrTouchDownPosition := env.warpAbsolute e.touch d.position ⟨e.x, e.y⟩ }
        | RawEvent.touchMotion e =>
          { d with position := env.warpAbsolute e.touch d.position ⟨e.x, e.y⟩ }
        | _ => d) ∧
    (handleEvent env event d).seatNotifications = d.seatNotifications ∧
    (handleEvent env event d).windowEvents = d.windowEvents ∧
    handleEvent env event d =
      { handleEvent env event { d with seat := some seat } with
        seat := none
        seatNotifications := d.seatNotifications } ∧
    (handleEvent env event d).state =
      (handleEvent env event { d with seat := some seat }).state ∧
    (handleEvent env event d).lastPressedOrTouchDownPosition =
      (handleEvent env event { d with seat := some seat }).lastPressedOrTouchDownPosition := by
  obtain ⟨position, image, xm, cursor, shape, surf, hot, seat0, win, layout, devs, lastp, vis,
    es, ls, button, state, wev, sn⟩ := d
  simp only at h
  subst h
  cases event with
  | button e =>
    by_cases hs : e.state = wlr_button_state.WLR_BUTTON_RELEASED <;>
      simp [handleEvent, on_button, notifySeat, hs]
  | _ =>
    simp [handleEvent, on_motion, on_motion_absolute, on_axis, on_frame, on_swipe_begin,
      on_swipe_update, on_swipe_end, on_pinch_begin, on_pinch_update, on_pinch_end,
      on_hold_begin, on_hold_end, on_touch_down, on_touch_motion, on_touch_frame,
      on_touch_cancel, on_touch_up, processCursorMotion, move, setScalePosition, notifySeat]

/-- C10 at a press of the left button on the cursor `cursorAt`, which has no seat
and stands at `(3, 4)`: the mask becomes the left button and `(3, 4)` the last
press position. -/
theorem handleEvent_no_seat_witness :
    handleEvent envMouse (RawEvent.button ⟨1, 10, 0x110, wlr_button_state.WLR_BUTTON_PRESSED⟩)
        cursorAt =
      { cursorAt with
        button := 0x00000001
        state := 0x00000001
        lastPressedOrTouchDownPosition := ⟨3, 4⟩ } ∧
    (handleEvent envMouse (RawEvent.button ⟨1, 10, 0x110, wlr_button_state.WLR_BUTTON_PRESSED⟩)
        cursorAt).seatNotifications = cursorAt.seatNotifications ∧
    (handleEvent envMouse (RawEvent.button ⟨1, 10, 0x110, wlr_button_state.WLR_BUTTON_PRESSED⟩)
        cursorAt).windowEvents = cursorAt.windowEvents ∧
    handleEvent envMouse (RawEvent.button ⟨1, 10, 0x110, wlr_button_state.WLR_BUTTON_PRESSED⟩)
        cursorAt =
      { handleEvent envMouse
          (RawEvent.button ⟨1, 10, 0x110, wlr_button_state.WLR_BUTTON_PRESSED⟩)
          { cursorAt with seat := some 1 } with
        seat := none
        seatNotifications := cursorAt.seatNotifications } ∧
    (handleEvent envMouse (RawEvent.button ⟨1, 10, 0x110, wlr_button_state.WLR_BUTTON_PRESSED⟩)
        cursorAt).state =
      (handleEvent envMouse (RawEvent.button ⟨1, 10, 0x110, wlr_button_state.WLR_BUTTON_PRESSED⟩)
        { cursorAt with seat := some 1 }).state ∧
    (handleEvent envMouse (RawEvent.button ⟨1, 10, 0x110, wlr_button_state.WLR_BUTTON_PRESSED⟩)
        cursorAt).lastPressedOrTouchDownPosition =
      (handleEvent envMouse (RawEvent.button ⟨1, 10, 0x110, wlr_button_state.WLR_BUTTON_PRESSED⟩)
        { cursorAt with seat := some 1 }).lastPressedOrTouchDownPosition :=
  handleEvent_no_seat envMouse
    (RawEvent.button ⟨1, 10, 0x110, wlr_button_state.WLR_BUTTON_PRESSED⟩) cursorAt 1 rfl


/-! ### Visibility -/

/-- Hiding a visible cursor unsets the image and changes nothing else. -/
theorem setVisible_false (env : Env) (d : WCursorPrivate) (hvis : d.visible = true) :
    setVisible env false d = some { d with visible := false, image := CursorImage.unset } := by
  simp [setVisible, hvis]

/-- Hiding and showing a visible cursor: the cached client surface becomes the
image when there is one, and the image is recomputed from none otherwise. -/
theorem setVisible_hide_show_eq (env : Env) (d : WCursorPrivate) (hvis : d.visible = true) :
    (setVisible env false d).bind (setVisible env true) =
      match d.surfaceOfCursor with
      | some surface =>
        some { d with image := CursorImage.surface (some surface) d.surfaceCursorHotspot }
      | none => updateCursorImage env { d with image := CursorImage.unset } := by
  rw [setVisible_false env d hvis]
  obtain ⟨position, image, xm, cursor, shape, surf, hot, seat0, win, layout, devs, lastp, vis,
    es, ls, button, state, wev, sn⟩ := d
  simp only at hvis
  subst hvis
  cases surf <;> simp [setVisible]

/-- C9, amended: `setVisible(false)` followed by `setVisible(true)` on a visible
cursor changes at most the image, and the image it leaves is the one resolved
from the state: the cached client surface with the cached hotspot; without a
cached surface and with an output layout, while a surface has pointer focus the
theme cursor that `checkTypeAndFallback` resolves for the type name of `shape`,
or `default`, when there is a type name and a manager; while no surface has
pointer focus the theme cursor resolved for the type name of the shape of
`cursor`, or when nothing resolves the bitmap of `cursor`. In each case a cursor
that showed this image before is in the same state afterwards. In the remaining
cases that return, no image is left. -/
theorem setVisible_hide_show (env : Env) (d : WCursorPrivate) (hvis : d.visible = true) :
    (∀ surface, d.surfaceOfCursor = some surface →
      (setVisible env false d).bind (setVisible env true) =
          some { d with image := CursorImage.surface (some surface) d.surfaceCursorHotspot } ∧
        (d.image = CursorImage.surface (some surface) d.surfaceCursorHotspot →
          (setVisible env false d).bind (setVisible env true) = some d)) ∧
    (∀ layout name m, d.surfaceOfCursor = none → d.outputLayout = some layout →
      hasPointerFocus env d = true → qcursorShapeToType d.shape = some name →
      d.xcursor_manager = some m →
      (setVisible env false d).bind (setVisible env true) =
          some { d with image :=
            CursorImage.xcursor ((checkTypeAndFallback (some m) name).getD "default") } ∧
        (d.image = CursorImage.xcursor ((checkTypeAndFallback (some m) name).getD "default") →
          (setVisible env false d).bind (setVisible env true) = some d)) ∧
    (∀ layout name r, d.surfaceOfCursor = none → d.outputLayout = some layout →
      hasPointerFocus env d = false → qcursorShapeToType d.cursor.shape = some name →
      checkTypeAndFallback d.xcursor_manager name = some r →
      (setVisible env false d).bind (setVisible env true) =
          some { d with image := CursorImage.xcursor r } ∧
        (d.image = CursorImage.xcursor r →
          (setVisible env false d).bind (setVisible env true) = some d)) ∧
    (∀ layout img, d.surfaceOfCursor = none → d.outputLayout = some layout →
      hasPointerFocus env d = false →
      checkTypeAndFallbackPtr d.xcursor_manager (qcursorShapeToType d.cursor.shape)
        = some none →
      d.cursor.pixmap = some img →
      (setVisible env false d).bind (setVisible env true) =
          some { d with image :=
            CursorImage.buffer img d.cursor.hotSpot img.devicePixelRatio } ∧
        (d.image = CursorImage.buffer img d.cursor.hotSpot img.devicePixelRatio →
          (setVisible env false d).bind (setVisible env true) = some d)) ∧
    (d.surfaceOfCursor = none →
      (d.outputLayout = none ∨
        (hasPointerFocus env d = true ∧
          (qcursorShapeToType d.shape = none ∨ d.xcursor_manager = none)) ∨
        (hasPointerFocus env d = false ∧
          checkTypeAndFallbackPtr d.xcursor_manager (qcursorShapeToType d.cursor.shape)
            = some none ∧
          d.cursor.pixmap = none)) →
      (setVisible env false d).bind (setVisible env true) =
          some { d with image := CursorImage.unset } ∧
        (d.image = CursorImage.unset →
          (setVisible env false d).bind (setVisible env true) = some d)) := by
  rw [setVisible_hide_show_eq env d hvis]
  obtain ⟨position, image, xm, cursor, shape, surf, hot, seat0, win, layout0, devs, lastp, vis,
    es, ls, button, state, wev, sn⟩ := d
  simp only at hvis
  subst hvis
  simp only [hasPointerFocus]
  refine ⟨?_, ?_, ?_, ?_, ?_⟩
  · intro surface hs
    subst hs
    refine ⟨rfl, ?_⟩
    intro hi
    subst hi
    rfl
  · intro layout name m hs hl hf hn hm
    subst hs
    subst hl
    subst hm
    constructor
    · cases hres : checkTypeAndFallback (some m) name <;>
        simp [updateCursorImage, hasPointerFocus, hf, hn, hres, setType]
    · intro hi
      subst hi
      cases hres : checkTypeAndFallback (some m) name <;>
        simp [updateCursorImage, hasPointerFocus, hf, hn, hres, setType]
  · intro layout name r hs hl hf hn hres
    subst hs
    subst hl
    cases xm with
    | none => simp [checkTypeAndFallback] at hres
    | some m =>
      constructor
      · simp [updateCursorImage, hasPointerFocus, hf, hn, hres, checkTypeAndFallbackPtr,
          setType]
      · intro hi
        subst hi
        simp [updateCursorImage, hasPointerFocus, hf, hn, hres, checkTypeAndFallbackPtr,
          setType]
  · intro layout img hs hl hf hptr hpix
    subst hs
    subst hl
    constructor
    · simp [updateCursorImage, hasPointerFocus, hf, hptr, hpix]
    · intro hi
      subst hi
      simp [updateCursorImage, hasPointerFocus, hf, hptr, hpix]
  · intro hs hcase
    subst hs
    rcases hcase with hl | ⟨hf, hn | hm⟩ | ⟨hf, hptr, hpix⟩
    · subst hl
      constructor
      · simp [updateCursorImage]
      · intro hi
        subst hi
        simp [updateCursorImage]
    · cases layout0 <;> constructor <;>
        first
        | (intro hi; subst hi; simp [updateCursorImage, hasPointerFocus, hf, hn])
        | simp [updateCursorImage, hasPointerFocus, hf, hn]
    · subst hm
      cases layout0 <;> cases hn : qcursorShapeToType shape <;> constructor <;>
        first
        | (intro hi; subst hi;
           simp [updateCursorImage, hasPointerFocus, hf, hn, checkTypeAndFallback, setType])
        | simp [updateCursorImage, hasPointerFocus, hf, hn, checkTypeAndFallback, setType]
    · cases layout0 <;> constructor <;>
        first
        | (intro hi; subst hi; simp [updateCursorImage, hasPointerFocus, hf, hptr, hpix])
        | simp [updateCursorImage, hasPointerFocus, hf, hptr, hpix]

/-- C9 at five cursors, each showing the image resolved from its state: a cached
client surface; under pointer focus the theme cursor `text` for the shape
`Xterm`; without focus the theme cursor `left_ptr` for the arrow; a bitmap; and
under pointer focus with the shape `Invalid`, no image. -/
theorem setVisible_hide_show_witness :
    (setVisible envFocus false cursorSurface).bind (setVisible envFocus true)
      = some cursorSurface ∧
    (setVisible envFocus false cursorFocusXterm).bind (setVisible envFocus true)
      = some cursorFocusXterm ∧
    (setVisible envMouse false cursorArrow).bind (setVisible envMouse true)
      = some cursorArrow ∧
    (setVisible envMouse false cursorBitmap).bind (setVisible envMouse true)
      = some cursorBitmap ∧
    (setVisible envFocus false cursorThemed).bind (setVisible envFocus true)
      = some cursorThemed :=
  ⟨((setVisible_hide_show envFocus cursorSurface rfl).1 9 rfl).2 rfl,
    ((setVisible_hide_show envFocus cursorFocusXterm rfl).2.1 3 "xterm" themeBasic rfl rfl
      (by decide) rfl rfl).2 (by decide),
    ((setVisible_hide_show envMouse cursorArrow rfl).2.2.1 3 "left_ptr" "left_ptr" rfl rfl
      (by decide) rfl (by decide)).2 rfl,
    ((setVisible_hide_show envMouse cursorBitmap rfl).2.2.2.1 3 ⟨1, 1⟩ rfl rfl
      (by decide) rfl rfl).2 rfl,
    ((setVisible_hide_show envFocus cursorThemed rfl).2.2.2.2 rfl
      (Or.inr (Or.inl ⟨by decide, Or.inl rfl⟩))).2 rfl⟩

/-- C9 as stated fails: the cursor `cursorArrow` shows the theme cursor `left_ptr`,
as `setSurface(nullptr)` followed by `setCursor` leaves it while no surface has
pointer focus; its shape is `Invalid`. With a surface in pointer focus, hiding
and showing it leaves no image. -/
theorem setVisible_hide_show_counterexample :
    setCursor envMouse arrowCursor (setSurface none ⟨0, 0⟩ cursorThemed) = some cursorArrow ∧
    cursorArrow.visible = true ∧
    cursorArrow.image = CursorImage.xcursor "left_ptr" ∧
    ((setVisible envFocus false cursorArrow).bind (setVisible envFocus true)).map
        (fun d => (d.visible, d.image))
      = some (true, CursorImage.unset) := by
  refine ⟨rfl, rfl, rfl, ?_⟩
  decide

/-! ### Attaching devices -/

/-- When `sendEnterEvent` returns it leaves the device list as it was. -/
theorem sendEnterEvent_deviceList (env : Env) (d d1 : WCursorPrivate)
    (h : sendEnterEvent env d = some d1) : d1.deviceList = d.deviceList := by
  unfold sendEnterEvent at h
  split at h
  · cases h
    rfl
  · split at h
    · cases h
    · split at h
      · cases h
      · split at h
        · cases h
        · cases h
          rfl
        · split at h
          · cases h
          · cases h
            rfl

/-- The call `sendEnterEvent` returns when a seat and a window are set and either
the enter event was sent or the pointing device of the seat resolves to a
waylib device. -/
theorem sendEnterEvent_returns (env : Env) (d : WCursorPrivate) (seat : WSeat) (w : QWindow)
    (hseat : d.seat = some seat) (hwin : d.eventWindow = some w)
    (h : d.enterWindowEventHasSend = true ∨
      ∃ qdevice ws, getDevice env.devices (env.seatName seat) = some qdevice ∧
        qdevice.wdevice = some ws) :
    ∃ d1, sendEnterEvent env d = some d1 := by
  cases hsent : d.enterWindowEventHasSend with
  | true => exact ⟨d, sendEnterEvent_sent env d hsent⟩
  | false =>
    rcases h with h | ⟨qdevice, ws, hq, hws⟩
    · rw [hsent] at h
      cases h
    · cases ws with
      | none => exact ⟨d, by simp [sendEnterEvent, hsent, hseat, hq, hws]⟩
      | some ws1 =>
        exact ⟨_, sendEnterEvent_deliver env d seat w qdevice ws1 hseat hwin hsent hq hws⟩

/-- C11, amended: a device that is no pointer, touch or tablet is refused with
the state unchanged (list, flags and logs included). A device of one of these
kinds that is not attached is accepted, with `true` and the device at the end of
the list, unless the call stops at a fatal precondition; it does not stop when
no window is set, or a device is attached already, or a seat is bound and either
the enter event was sent or the pointing device of the seat resolves to a waylib
device. -/
theorem attachInputDevice_kind (env : Env) (device : WInputDevice) (d : WCursorPrivate) :
    ((device.type ≠ WInputDeviceType.Pointer ∧ device.type ≠ WInputDeviceType.Touch ∧
        device.type ≠ WInputDeviceType.Tablet) →
      attachInputDevice env device d = some (false, d)) ∧
    ((device.type = WInputDeviceType.Pointer ∨ device.type = WInputDeviceType.Touch ∨
        device.type = WInputDeviceType.Tablet) →
      device ∉ d.deviceList →
      (d.eventWindow = none ∨ d.deviceList ≠ [] ∨
        ∃ seat, d.seat = some seat ∧
          (d.enterWindowEventHasSend = true ∨
            ∃ qdevice ws, getDevice env.devices (env.seatName seat) = some qdevice ∧
              qdevice.wdevice = some ws)) →
      ∃ d1, attachInputDevice env device d = some (true, d1) ∧
        d1.deviceList = d.deviceList ++ [device] ∧ device ∈ d1.deviceList) := by
  constructor
  · intro hkind
    simp [attachInputDevice, hkind]
  · intro hkind hnot hok
    have hk : ¬ (device.type ≠ WInputDeviceType.Pointer ∧ device.type ≠ WInputDeviceType.Touch ∧
        device.type ≠ WInputDeviceType.Tablet) := by
      rintro ⟨h1, h2, h3⟩
      rcases hkind with h | h | h
      · exact h1 h
      · exact h2 h
      · exact h3 h
    have hc : d.deviceList.contains device = false := by
      simpa using hnot
    have hstep : attachInputDevice env device d =
        (if (d.eventWindow.isSome && (d.deviceList ++ [device]).length == 1) = true then
          (if d.seat.isSome = true then
            (sendEnterEvent env { d with deviceList := d.deviceList ++ [device] }).map
              (fun d2 => (true, d2))
          else none)
        else some (true, { d with deviceList := d.deviceList ++ [device] })) := by
      simp only [attachInputDevice, hk, if_false, hc, Bool.false_eq_true]
    rw [hstep]
    have hplain : ∃ d1, some (true, { d with deviceList := d.deviceList ++ [device] })
        = some (true, d1) ∧ d1.deviceList = d.deviceList ++ [device] ∧
          device ∈ d1.deviceList :=
      ⟨{ d with deviceList := d.deviceList ++ [device] }, rfl, rfl, by simp⟩
    by_cases hfirst : (d.eventWindow.isSome && (d.deviceList ++ [device]).length == 1) = true
    · rw [if_pos hfirst]
      have hwin : ∃ w, d.eventWindow = some w := by
        cases hw : d.eventWindow with
        | none => simp [hw] at hfirst
        | some w => exact ⟨w, rfl⟩
      have hnil : d.deviceList = [] := by
        cases hl : d.deviceList with
        | nil => rfl
        | cons a l => simp [hl] at hfirst
      obtain ⟨w, hw⟩ := hwin
      rcases hok with hw0 | hl | ⟨seat, hseat, hs⟩
      · rw [hw] at hw0
        cases hw0
      · exact absurd hnil hl
      · have hsome : d.seat.isSome = true := by simp [hseat]
        rw [if_pos hsome]
        obtain ⟨d1, hd1⟩ := sendEnterEvent_returns env
          { d with deviceList := d.deviceList ++ [device] } seat w hseat hw hs
        have hlist := sendEnterEvent_deviceList env _ d1 hd1
        refine ⟨d1, by rw [hd1]; rfl, hlist, ?_⟩
        rw [hlist]
        simp
    · rw [if_neg hfirst]
      exact hplain


theorem attachInputDevice_kind_witness :
    attachInputDevice envMouse keyboardA cursorBound = some (false, cursorBound) ∧
    ∃ d1, attachInputDevice envMouse mouseA cursorBound = some (true, d1) ∧
      d1.deviceList = cursorBound.deviceList ++ [mouseA] ∧ mouseA ∈ d1.deviceList :=
  ⟨(attachInputDevice_kind envMouse keyboardA cursorBound).1 (by decide),
    (attachInputDevice_kind envMouse mouseA cursorBound).2 (by decide) (by decide)
      (Or.inr (Or.inr ⟨1, rfl, Or.inr
        ⟨⟨"seat0", QDeviceType.Mouse, some (some 1)⟩, some 1, by decide, rfl⟩⟩))⟩

/-- C11 as stated fails: seat `1` and window `7` are set, nothing is attached and
Qt knows no pointing device of the seat; attaching the pointer `mouseA`, which
is not attached, stops at the assertion of `sendEnterEvent` and returns nothing. -/
theorem attachInputDevice_kind_counterexample :
    mouseA.type = WInputDeviceType.Pointer ∧ mouseA ∉ cursorBound.deviceList ∧
      (attachInputDevice envNoDevice mouseA cursorBound).map (fun r => r.1) = none := by
  decide

/-- C12, amended: for the first device of an accepted kind with a window set,
`attachInputDevice` stops at the assertion `Q_ASSERT(d->seat)` when no seat is
bound; with a seat bound whose pointing device resolves to a waylib device that
reports a seat, and no enter sent, it registers the device, returns `true` and
delivers one enter event to the window. -/
theorem attachInputDevice_first (env : Env) (device : WInputDevice) (d : WCursorPrivate)
    (w : QWindow)
    (hkind : device.type = WInputDeviceType.Pointer ∨ device.type = WInputDeviceType.Touch ∨
      device.type = WInputDeviceType.Tablet)
    (hempty : d.deviceList = []) (hwin : d.eventWindow = some w) :
    (d.seat = none → attachInputDevice env device d = none) ∧
    (∀ seat qdevice ws, d.seat = some seat → d.enterWindowEventHasSend = false →
      getDevice env.devices (env.seatName seat) = some qdevice →
      qdevice.wdevice = some (some ws) →
      attachInputDevice env device d = some (true, { d with
        deviceList := [device]
        enterWindowEventHasSend := true
        windowEvents := d.windowEvents ++
          [WindowEvent.enter w (d.position.sub (env.windowPosition w)) d.position] })) := by
  have hk : ¬ (device.type ≠ WInputDeviceType.Pointer ∧ device.type ≠ WInputDeviceType.Touch ∧
      device.type ≠ WInputDeviceType.Tablet) := by
    rintro ⟨h1, h2, h3⟩
    rcases hkind with h | h | h
    · exact h1 h
    · exact h2 h
    · exact h3 h
  have hstep : attachInputDevice env device d =
      (if d.seat.isSome = true then
        (sendEnterEvent env { d with deviceList := [device] }).map (fun d2 => (true, d2))
      else none) := by
    simp [attachInputDevice, hk, hempty, hwin]
  rw [hstep]
  constructor
  · intro hseat
    simp [hseat]
  · intro seat qdevice ws hseat hsent hq hws
    have hsome : d.seat.isSome = true := by simp [hseat]
    rw [if_pos hsome,
      sendEnterEvent_deliver env { d with deviceList := [device] } seat w qdevice ws hseat hwin
        hsent hq hws]
    rfl

theorem attachInputDevice_first_witness :
    attachInputDevice envMouse mouseA cursorWindowOnly = none ∧
    attachInputDevice envMouse mouseA cursorBound = some (true, { cursorBound with
      deviceList := [mouseA]
      enterWindowEventHasSend := true
      windowEvents := cursorBound.windowEvents ++
        [WindowEvent.enter 7 (cursorBound.position.sub (envMouse.windowPosition 7))
          cursorBound.position] }) :=
  ⟨(attachInputDevice_first envMouse mouseA cursorWindowOnly 7 (by decide) rfl rfl).1 rfl,
    (attachInputDevice_first envMouse mouseA cursorBound 7 (by decide) rfl rfl).2 1
      ⟨"seat0", QDeviceType.Mouse, some (some 1)⟩ 1 rfl rfl (by decide) rfl⟩

/-- C12 as stated fails: window `7` is set, no seat is bound and nothing is
attached; attaching the pointer `mouseA` stops at `Q_ASSERT(d->seat)` instead of
returning `true`. -/
theorem attachInputDevice_first_counterexample :
    cursorWindowOnly.seat = none ∧ cursorWindowOnly.eventWindow = some 7 ∧
      cursorWindowOnly.deviceList = [] ∧
      (attachInputDevice envMouse mouseA cursorWindowOnly).map (fun r => r.1) = none := by
  decide


/-! ### Recomputing the image -/

/-- C13, amended: with an output layout set, a seat bound and a surface in
pointer focus, `updateCursorImage` returns and changes at most the image, so the
cached client surface and its hotspot stay. When the shape has a type name and a
manager is set, the image becomes the theme cursor that `checkTypeAndFallback`
resolves, or `default` when it resolves nothing; when the shape has no type name
or no manager is set, nothing changes. -/
theorem updateCursorImage_focus (env : Env) (d : WCursorPrivate) (layout : WOutputLayout)
    (hlayout : d.outputLayout = some layout) (hfocus : hasPointerFocus env d = true) :
    ∃ d1, updateCursorImage env d = some d1 ∧ d1 = { d with image := d1.image } ∧
      d1.surfaceOfCursor = d.surfaceOfCursor ∧
      d1.surfaceCursorHotspot = d.surfaceCursorHotspot ∧
      (∀ typeName m, qcursorShapeToType d.shape = some typeName →
        d.xcursor_manager = some m →
        d1.image = CursorImage.xcursor
          ((checkTypeAndFallback (some m) typeName).getD "default")) ∧
      ((qcursorShapeToType d.shape = none ∨ d.xcursor_manager = none) → d1 = d) := by
  obtain ⟨position, image, xm, cursor, shape, surf, hot, seat0, win, layout0, devs, lastp, vis,
    es, ls, button, state, wev, sn⟩ := d
  simp only at hlayout
  subst hlayout
  simp only [updateCursorImage, hfocus, Option.isNone_some, Bool.false_eq_true, if_false,
    if_true]
  cases hname : qcursorShapeToType shape with
  | none =>
    exact ⟨_, rfl, rfl, rfl, rfl, (fun _ _ h => by cases h), (fun _ => rfl)⟩
  | some typeName =>
    cases xm with
    | none =>
      exact ⟨_, rfl, rfl, rfl, rfl, (fun _ _ _ h => by cases h), (fun _ => rfl)⟩
    | some m =>
      cases hres : checkTypeAndFallback (some m) typeName with
      | none =>
        simp only [hres]
        refine ⟨_, rfl, rfl, rfl, rfl, ?_, ?_⟩
        · intro t m1 ht hm1
          cases ht
          cases hm1
          simp [hres, setType]
        · rintro (h | h)
          · cases h
          · cases h
      | some checkedName =>
        simp only [hres]
        refine ⟨_, rfl, rfl, rfl, rfl, ?_, ?_⟩
        · intro t m1 ht hm1
          cases ht
          cases hm1
          simp [hres, setType]
        · rintro (h | h)
          · cases h
          · cases h


theorem updateCursorImage_focus_witness :
    ∃ d1, updateCursorImage envFocus cursorThemedXterm = some d1 ∧
      d1 = { cursorThemedXterm with image := d1.image } ∧
      d1.surfaceOfCursor = cursorThemedXterm.surfaceOfCursor ∧
      d1.surfaceCursorHotspot = cursorThemedXterm.surfaceCursorHotspot ∧
      (∀ typeName m, qcursorShapeToType cursorThemedXterm.shape = some typeName →
        cursorThemedXterm.xcursor_manager = some m →
        d1.image = CursorImage.xcursor
          ((checkTypeAndFallback (some m) typeName).getD "default")) ∧
      ((qcursorShapeToType cursorThemedXterm.shape = none ∨
        cursorThemedXterm.xcursor_manager = none) → d1 = cursorThemedXterm) :=
  updateCursorImage_focus envFocus cursorThemedXterm 3 rfl (by decide)

/-- C13 as stated fails: a seat is bound, a surface has pointer focus, the theme
holds `default`, and the shape is `Invalid`; `updateCursorImage` activates no
theme cursor, neither a resolved one nor `default`. -/
theorem updateCursorImage_focus_counterexample :
    cursorThemed.seat = some 1 ∧ hasPointerFocus envFocus cursorThemed = true ∧
      themeBasic.getXCursor "default" 1 = true ∧
      (updateCursorImage envFocus cursorThemed).map (fun d => d.image)
        = some CursorImage.unset := by
  decide

/-- C14, amended: with an output layout set and no surface in pointer focus,
`setCursorShape(s)` stores `s` and clears the cached client surface. While the
cursor is hidden it sets no image: the image stays as it was. While it is
visible it resolves the type name of the shape of the `QCursor` held in `cursor`
(not of `s`), and when that resolves the image is the resolved theme cursor. -/
theorem setCursorShape_no_focus (env : Env) (d : WCursorPrivate) (layout : WOutputLayout)
    (s : CursorShape)
    (hlayout : d.outputLayout = some layout) (hfocus : hasPointerFocus env d = false) :
    (d.visible = false →
      setCursorShape env s d = some { d with shape := s, surfaceOfCursor := none }) ∧
    (d.visible = true → ∀ name r, qcursorShapeToType d.cursor.shape = some name →
      checkTypeAndFallback d.xcursor_manager name = some r →
      setCursorShape env s d = some { d with
        shape := s
        surfaceOfCursor := none
        image := CursorImage.xcursor r }) := by
  obtain ⟨position, image, xm, cursor, shape, surf, hot, seat0, win, layout0, devs, lastp, vis,
    es, ls, button, state, wev, sn⟩ := d
  simp only at hlayout
  subst hlayout
  have hf : hasPointerFocus env
      { position := position, image := image, xcursor_manager := xm, cursor := cursor,
        shape := s, surfaceOfCursor := surf, surfaceCursorHotspot := hot, seat := seat0,
        eventWindow := win, outputLayout := some layout, deviceList := devs,
        lastPressedOrTouchDownPosition := lastp, visible := vis,
        enterWindowEventHasSend := es, leaveWindowEventHasSend := ls, button := button,
        state := state, windowEvents := wev, seatNotifications := sn } = false := hfocus
  constructor
  · intro hvis
    simp only at hvis
    subst hvis
    simp [setCursorShape, updateCursorImage, hf]
  · intro hvis name r hname hres
    simp only at hvis hname hres
    subst hvis
    cases xm with
    | none => simp [checkTypeAndFallback] at hres
    | some m =>
      simp [setCursorShape, updateCursorImage, hf, hname, checkTypeAndFallbackPtr, hres,
        setType]

theorem setCursorShape_no_focus_witness :
    setCursorShape envMouse CursorShape.Text { cursorThemed with visible := false }
      = some { cursorThemed with visible := false, shape := CursorShape.Text } ∧
    setCursorShape envMouse CursorShape.Text cursorThemed
      = some { cursorThemed with
          shape := CursorShape.Text
          image := CursorImage.xcursor "left_ptr" } :=
  ⟨(setCursorShape_no_focus envMouse { cursorThemed with visible := false } 3
      CursorShape.Text rfl (by decide)).1 rfl,
    (setCursorShape_no_focus envMouse cursorThemed 3 CursorShape.Text rfl (by decide)).2 rfl
      "left_ptr" "left_ptr" rfl (by decide)⟩

/-- C14 as stated fails: nothing has pointer focus, the cursor is visible and its
`QCursor` is the arrow; the theme resolves `text`, the type name of the shape
`Text`, but after `setCursorShape(Text)` the image is the theme cursor
`left_ptr`. -/
theorem setCursorShape_no_focus_counterexample :
    hasPointerFocus envMouse cursorThemed = false ∧ cursorThemed.visible = true ∧
      qcursorShapeToType CursorShape.Text = some "text" ∧
      checkTypeAndFallback cursorThemed.xcursor_manager "text" = some "text" ∧
      (setCursorShape envMouse CursorShape.Text cursorThemed).map (fun d => (d.shape, d.image))
        = some (CursorShape.Text, CursorImage.xcursor "left_ptr") := by
  decide


/-! ### Relative motion -/

/-- C15, amended: with a seat bound, a relative motion event moves the cursor as
the handle does and delivers one `notifyMotion(device, time)` to the seat,
whether or not the position changed. -/
theorem on_motion_notifies (env : Env) (event : wlr_pointer_motion_event) (d : WCursorPrivate)
    (seat : WSeat) (hseat : d.seat = some seat) :
    (on_motion env event d).position =
        env.move event.pointer d.position ⟨event.delta_x, event.delta_y⟩ ∧
      (on_motion env event d).seatNotifications = d.seatNotifications ++
        [(seat, SeatNotification.notifyMotion event.pointer event.time_msec)] := by
  simp [on_motion, processCursorMotion, move, notifySeat, hseat]

theorem on_motion_notifies_witness :
    (on_motion envMouse ⟨1, 10, 3, 4⟩ cursorSeat).position =
        envMouse.move 1 cursorSeat.position ⟨3, 4⟩ ∧
      (on_motion envMouse ⟨1, 10, 3, 4⟩ cursorSeat).seatNotifications =
        cursorSeat.seatNotifications ++ [(1, SeatNotification.notifyMotion 1 10)] :=
  on_motion_notifies envMouse ⟨1, 10, 3, 4⟩ cursorSeat 1 rfl

/-- C15 as stated fails: seat `1` is bound and the event carries the delta zero;
the position is unchanged and `notifyMotion` is delivered all the same. -/
theorem on_motion_counterexample :
    cursorSeat.seat = some 1 ∧
      (on_motion envMouse ⟨1, 10, 0, 0⟩ cursorSeat).position = cursorSeat.position ∧
      (on_motion envMouse ⟨1, 10, 0, 0⟩ cursorSeat).seatNotifications
        = [(1, SeatNotification.notifyMotion 1 10)] := by
  decide

/-! ### The alias table and the result of resolution -/

/-- C16: no name occurs twice in the table, neither in two groups nor twice in
one; hence two groups of the table that share a name are the same group, and
it is the group that the lookup of the name selects. -/
theorem typeLists_disjoint :
    typeLists.flatten.Nodup ∧
    typeLists.Pairwise (fun g g' => ∀ x ∈ g, x ∉ g') ∧
    (∀ g ∈ typeLists, g.Nodup) ∧
    ∀ (name : String) (g g' : List String), g ∈ typeLists → g' ∈ typeLists →
      name ∈ g → name ∈ g' → g = g' ∧ firstGroupOf name typeLists = some g := by
  refine ⟨by decide, by decide, by decide, ?_⟩
  intro name g g' hg hg' hn hn'
  have h1 := typeLists_firstGroup g hg name hn
  have h2 := typeLists_firstGroup g' hg' name hn'
  rw [h1] at h2
  exact ⟨Option.some.inj h2, h1⟩

theorem typeLists_disjoint_witness :
    ["ibeam", "text", "xterm"] = ["ibeam", "text", "xterm"] ∧
      firstGroupOf "text" typeLists = some ["ibeam", "text", "xterm"] :=
  typeLists_disjoint.2.2.2 "text" ["ibeam", "text", "xterm"] ["ibeam", "text", "xterm"]
    (by decide) (by decide) (by decide) (by decide)


/-- C17: a name that `checkTypeAndFallback` returns is in the theme at scale 1.0,
and it is the requested name or an entry of a group of the table that holds the
requested name, which is the only group holding the returned name. -/
theorem checkTypeAndFallback_sound (xm : Option QWXCursorManager) (name r : String)
    (h : checkTypeAndFallback xm name = some r) :
    ∃ m, xm = some m ∧ m.getXCursor r 1 = true ∧
      (r = name ∨ ∃ g ∈ typeLists, name ∈ g ∧ r ∈ g ∧
        ∀ g' ∈ typeLists, r ∈ g' → g' = g) := by
  cases xm with
  | none => simp [checkTypeAndFallback] at h
  | some m =>
    refine ⟨m, rfl, ?_⟩
    cases hlit : m.getXCursor name 1 with
    | true =>
      have hr : r = name := by
        simp [checkTypeAndFallback, hlit] at h
        exact h.symm
      subst hr
      exact ⟨hlit, Or.inl rfl⟩
    | false =>
      have hres : (firstGroupOf name typeLists).bind
          (fun g => g.find? (fun type => m.getXCursor type 1)) = some r := by
        simpa [checkTypeAndFallback, hlit, fallbackLoop_eq] using h
      cases hf : firstGroupOf name typeLists with
      | none =>
        rw [hf] at hres
        cases hres
      | some g =>
        rw [hf] at hres
        have hfind : g.find? (fun type => m.getXCursor type 1) = some r := hres
        have hty : hasType g name = true :=
          @List.find?_some _ (fun l => hasType l name) g typeLists hf
        have hmem : name ∈ g := (hasType_iff g name).1 hty
        have hgin : g ∈ typeLists := List.mem_of_find?_eq_some hf
        have hrin : r ∈ g := List.mem_of_find?_eq_some hfind
        have hpres : m.getXCursor r 1 = true :=
          @List.find?_some _ (fun type => m.getXCursor type 1) r g hfind
        refine ⟨hpres, Or.inr ⟨g, hgin, hmem, hrin, ?_⟩⟩
        intro g' hg' hr'
        have h1 := typeLists_firstGroup g hgin r hrin
        have h2 := typeLists_firstGroup g' hg' r hr'
        rw [h1] at h2
        exact (Option.some.inj h2).symm

theorem checkTypeAndFallback_sound_witness :
    ∃ m, some themeXtermText = some m ∧ m.getXCursor "text" 1 = true ∧
      ("text" = "ibeam" ∨ ∃ g ∈ typeLists, "ibeam" ∈ g ∧ "text" ∈ g ∧
        ∀ g' ∈ typeLists, "text" ∈ g' → g' = g) :=
  checkTypeAndFallback_sound (some themeXtermText) "ibeam" "text" (by decide)


/-! ### Native button codes -/

/-- A code outside `0x110 .. 0x11f` is no button. -/
theorem fromNativeButton_invalid (c : Nat) (h : c < 0x110 ∨ 0x11f < c) :
    fromNativeButton c = NoButton := by
  unfold fromNativeButton
  split <;> first | rfl | omega

/-- The button of a code is below `2 ^ 16`. -/
theorem fromNativeButton_lt (c : Nat) : fromNativeButton c < 2 ^ 16 := by
  unfold fromNativeButton
  split <;> decide

/-- A mask of 32 bits is unchanged by the removal of no button. -/
theorem and_complement32_zero (n : Nat) (h : n < 2 ^ 32) : n &&& complement32 0 = n := by
  have h1 : complement32 0 = 2 ^ 32 - 1 := by decide
  rw [h1, Nat.and_pow_two_sub_one_eq_mod, Nat.mod_eq_of_lt h]

/-- The mask stays within 32 bits under button events. -/
theorem on_button_state_lt (event : wlr_pointer_button_event) (d : WCursorPrivate)
    (h : d.state < 2 ^ 32) : (on_button event d).state < 2 ^ 32 := by
  rw [on_button_state]
  split
  · exact Nat.lt_of_le_of_lt Nat.and_le_left h
  · exact Nat.or_lt_two_pow h
      (Nat.lt_trans (fromNativeButton_lt event.button) (by decide))

/-- C18: on the codes `0x110 .. 0x11f`, `toNativeButton` undoes `fromNativeButton`,
whose value is the single bit `2 ^ (c - 0x110)`, so non-zero and different for
different codes; `fromNativeButton` undoes `toNativeButton` wherever that is
not `0`; a code outside the range gives `NoButton`, and a press or release event
that carries it leaves a mask of 32 bits unchanged. -/
theorem nativeButton_roundtrip :
    (∀ c, 0x110 ≤ c → c ≤ 0x11f →
      toNativeButton (fromNativeButton c) = c ∧ fromNativeButton c = 2 ^ (c - 0x110) ∧
        fromNativeButton c ≠ NoButton) ∧
    (∀ c c', 0x110 ≤ c → c ≤ 0x11f → 0x110 ≤ c' → c' ≤ 0x11f →
      fromNativeButton c = fromNativeButton c' → c = c') ∧
    (∀ b, toNativeButton b ≠ 0 →
      0x110 ≤ toNativeButton b ∧ toNativeButton b ≤ 0x11f ∧
        fromNativeButton (toNativeButton b) = b) ∧
    (∀ c, c < 0x110 ∨ 0x11f < c → fromNativeButton c = NoButton) ∧
    (∀ (event : wlr_pointer_button_event) (d : WCursorPrivate),
      event.button < 0x110 ∨ 0x11f < event.button → d.state < 2 ^ 32 →
      (on_button event d).state = d.state) := by
  have hinv : ∀ c, 0x110 ≤ c → c ≤ 0x11f → toNativeButton (fromNativeButton c) = c := by
    intro c h1 h2
    interval_cases c <;> rfl
  refine ⟨?_, ?_, ?_, fromNativeButton_invalid, ?_⟩
  · intro c h1 h2
    refine ⟨hinv c h1 h2, ?_, ?_⟩
    · interval_cases c <;> rfl
    · interval_cases c <;> decide
  · intro c c' h1 h2 h1' h2' heq
    rw [← hinv c h1 h2, ← hinv c' h1' h2', heq]
  · intro b hb
    unfold toNativeButton at hb ⊢
    split at hb <;> first | exact absurd rfl hb | exact ⟨by decide, by decide, rfl⟩
  · intro event d hcode hlt
    rw [on_button_state, fromNativeButton_invalid event.button hcode]
    split
    · exact and_complement32_zero d.state hlt
    · simp [NoButton]

theorem nativeButton_roundtrip_witness :
    (toNativeButton (fromNativeButton 0x112) = 0x112 ∧
        fromNativeButton 0x112 = 2 ^ (0x112 - 0x110) ∧ fromNativeButton 0x112 ≠ NoButton) ∧
      fromNativeButton 0x120 = NoButton ∧
      (on_button ⟨1, 10, 0x120, wlr_button_state.WLR_BUTTON_RELEASED⟩
        { cursor0 with state := 5 }).state = 5 :=
  ⟨nativeButton_roundtrip.1 0x112 (by decide) (by decide),
    nativeButton_roundtrip.2.2.2.1 0x120 (by decide),
    nativeButton_roundtrip.2.2.2.2 ⟨1, 10, 0x120, wlr_button_state.WLR_BUTTON_RELEASED⟩
      { cursor0 with state := 5 } (by decide) (by decide)⟩


end Waylib
